import Mathlib

/-!
# bankserv: the item and tag operations of the bank service client

A shallow embedding of `item.go` and `tag.go`.  Every operation of the two files is
written out as its own definition, statement for statement, over

* the client state `Service` (the base URL that every operation overwrites in place),
* the collaborators of the `dutil`/`msp` transport (`MarshalReader`, `NewRequest`,
  `Decode`), which are parameters of the operations, and
* a model of how `encoding/json` fills the locally declared response containers.

An operation returns an `Outcome`: the Go return values, the client state it leaves
behind and the collaborator calls it made, in order.
-/

namespace Bankserv

/-! ## Go values -/

/-- Go slice: `nil`, or a (possibly empty) sequence of elements. -/
inductive Slice (α : Type) where
  | nil
  | mk (xs : List α)
  deriving DecidableEq, Repr

/-- Elements of a slice; a nil slice has none. -/
def Slice.toList {α : Type} : Slice α → List α
  | .nil => []
  | .mk xs => xs

/-- Go `len(xs)`. -/
def Slice.len {α : Type} (xs : Slice α) : Nat := xs.toList.length

/-- Go `xs == nil`. -/
def Slice.isNil {α : Type} : Slice α → Bool
  | .nil => true
  | .mk _ => false

/-- The type `dutil.Errors`, a `map[string][]string`: `nil`, or bindings with pairwise
different keys, kept in the order in which the keys were first set. -/
inductive Errors where
  | nil
  | mk (kvs : List (String × Slice String))
  deriving DecidableEq, Repr

/-- Bindings of a map; a nil map has none. -/
def Errors.bindings : Errors → List (String × Slice String)
  | .nil => []
  | .mk kvs => kvs

/-- Go `m[k] = v` on the bindings of a map. -/
def assocSet {β : Type} (k : String) (v : β) : List (String × β) → List (String × β)
  | [] => [(k, v)]
  | (k', v') :: rest => if k' = k then (k, v) :: rest else (k', v') :: assocSet k v rest

/-- The struct `dutil.Err`; a `dutil.Error` is `Option Err`, `none` being Go `nil`. -/
structure Err where
  Status : Int
  Errors : Errors
  deriving DecidableEq, Repr

/-! ## JSON documents and `encoding/json` decoding into the response containers -/

/-- A parsed JSON document.  Objects keep their members in document order. -/
inductive JSON where
  | null
  | bool (b : Bool)
  | num (lit : String)
  | str (s : String)
  | arr (xs : List JSON)
  | obj (kvs : List (String × JSON))

/-- Case folding of one character of a member name: ASCII letters go to upper case, and
so do the two characters outside ASCII that fold onto an ASCII letter, U+017F (long s)
onto `S` and U+212A (Kelvin sign) onto `K`.  Every other character is kept: no other
character folds onto an ASCII one, and the field names compared with are ASCII. -/
def foldChar (c : Char) : Char :=
  if c = Char.ofNat 383 then 'S' else if c = Char.ofNat 8490 then 'K' else c.toUpper

/-- Case folding of a member name, for the comparison with the field names. -/
def foldName (s : String) : String := String.mk (s.data.map foldChar)

/-- A destination field as `encoding/json` sees it: its JSON name (the `json` tag, or
the Go field name when there is no tag) and the decoder that stores a value in it. -/
structure Field (σ : Type) where
  name : String
  set : JSON → σ → Option σ

/-- Field selection of `encoding/json` for an object member: an exact name match is
preferred, otherwise the first field whose name matches case-insensitively. -/
def findField {σ : Type} (fields : List (Field σ)) (key : String) : Option (Field σ) :=
  match fields.find? (fun f => f.name == key) with
  | some f => some f
  | none => fields.find? (fun f => foldName f.name == foldName key)

/-- Members of a JSON object are stored one after the other, in document order; a member
that matches no field is skipped; `none` is a type mismatch. -/
def objectInto {σ : Type} (fields : List (Field σ)) : List (String × JSON) → σ → Option σ
  | [], cur => some cur
  | (k, v) :: rest, cur =>
    match findField fields k with
    | none => objectInto fields rest cur
    | some f =>
      match f.set v cur with
      | none => none
      | some cur' => objectInto fields rest cur'

/-- Unmarshal into a struct: `null` leaves it as it is, an object fills its fields, every
other JSON value is a type mismatch. -/
def unmarshalStruct {σ : Type} (fields : List (Field σ)) : JSON → σ → Option σ
  | .null, cur => some cur
  | .obj kvs, cur => objectInto fields kvs cur
  | _, _ => none

/-- Unmarshal into a Go `string`. -/
def unmarshalString : JSON → String → Option String
  | .null, cur => some cur
  | .str s, _ => some s
  | _, _ => none

/-- Elements of a JSON array decoded over the elements `old` that the slice holds: the
element at an index below the old length is decoded into the element that is there (the
backing array is reused), every further element into a fresh zero element.  Elements
that an earlier, shorter array cut off from the slice are taken as zero. -/
def unmarshalElems {α : Type} (zero : α) (elem : JSON → α → Option α) :
    List JSON → List α → Option (List α)
  | [], _ => some []
  | x :: xs, old =>
    match elem x (old.headD zero) with
    | none => none
    | some v =>
      match unmarshalElems zero elem xs old.tail with
      | none => none
      | some vs => some (v :: vs)

/-- Unmarshal into a slice: `null` gives the nil slice; an array is decoded over the
elements of the slice, which then has the length of the array, so `[]` gives an empty
slice that is not nil. -/
def unmarshalSlice {α : Type} (zero : α) (elem : JSON → α → Option α) :
    JSON → Slice α → Option (Slice α)
  | .null, _ => some .nil
  | .arr xs, cur =>
    match unmarshalElems zero elem xs cur.toList with
    | none => none
    | some vs => some (.mk vs)
  | _, _ => none

/-- Members of a JSON object stored in a `map[string][]string`: each value is decoded
into a fresh `[]string` and bound to its key, a repeated key overwriting the binding. -/
def membersInto : List (String × JSON) → List (String × Slice String) →
    Option (List (String × Slice String))
  | [], m => some m
  | (k, v) :: rest, m =>
    match unmarshalSlice "" unmarshalString v .nil with
    | none => none
    | some msgs => membersInto rest (assocSet k msgs m)

/-- Unmarshal into a `dutil.Errors`: `null` gives the nil map, an object adds its members
to the map (which is created when it is nil). -/
def unmarshalErrors : JSON → Errors → Option Errors
  | .null, _ => some .nil
  | .obj kvs, cur =>
    match membersInto kvs cur.bindings with
    | none => none
    | some m => some (.mk m)
  | _, _ => none

/-! ## The base URL of the client and its rendering -/

/-- The fields of the client's `url.URL` that the service sets or the operations write;
every other field of the Go struct keeps its zero value. -/
structure URL where
  Scheme : String
  Host : String
  Path : String
  RawQuery : String
  deriving DecidableEq, Repr

/-- UTF-8 bytes of a character (Go strings are byte strings). -/
def utf8Bytes (c : Char) : List Nat :=
  let n := c.toNat
  if n < 128 then [n]
  else if n < 2048 then [192 + n / 64, 128 + n % 64]
  else if n < 65536 then [224 + n / 4096, 128 + (n / 64) % 64, 128 + n % 64]
  else [240 + n / 262144, 128 + (n / 4096) % 64, 128 + (n / 64) % 64, 128 + n % 64]

/-- Upper-case hexadecimal digits of net/url. -/
def upperhex : List Char := "0123456789ABCDEF".data

/-- The function `shouldEscape(c, encodeHost)` of net/url: ASCII letters and digits, the
bytes that a host may hold, which are the seventeen of
`! " $ & ' ( ) * + , : ; < = > [ ]`, and `-`, `_`, `.`, `~` stay as they are. -/
def shouldEscapeHost (c : Nat) : Bool :=
  if (97 ≤ c ∧ c ≤ 122) ∨ (65 ≤ c ∧ c ≤ 90) ∨ (48 ≤ c ∧ c ≤ 57) then false
  else if c ∈ [33, 34, 36, 38, 39, 40, 41, 42, 43, 44, 58, 59, 60, 61, 62, 91, 93] then false
  else if c = 45 ∨ c = 95 ∨ c = 46 ∨ c = 126 then false
  else true

/-- The function `shouldEscape(c, encodePath)` of net/url: ASCII letters and digits, `-`,
`_`, `.`, `~`, and of the reserved bytes all but `?`, which are the nine of
`$ & + , / : ; = @`, stay as they are. -/
def shouldEscapePath (c : Nat) : Bool :=
  if (97 ≤ c ∧ c ≤ 122) ∨ (65 ≤ c ∧ c ≤ 90) ∨ (48 ≤ c ∧ c ≤ 57) then false
  else if c = 45 ∨ c = 95 ∨ c = 46 ∨ c = 126 then false
  else if c ∈ [36, 38, 43, 44, 47, 58, 59, 61, 64] then false
  else true

/-- The function `escape` of net/url outside query components: a byte that is to be
escaped is written as `%` and two hexadecimal digits. -/
def escape (should : Nat → Bool) (s : String) : String :=
  String.mk (s.data.flatMap (fun c => (utf8Bytes c).flatMap (fun b =>
    if should b then ['%', upperhex.getD (b / 16) '0', upperhex.getD (b % 16) '0']
    else [Char.ofNat b])))

/-- Go `(*url.URL).EscapedPath` for a URL without `RawPath`, as a function of the path. -/
def escapedPath (path : String) : String :=
  if path = "*" then "*" else escape shouldEscapePath path

/-- The rendering `(*url.URL).String` for such a URL: scheme, `//` and the escaped host,
the escaped path, and the query string after `?`. -/
def URL.String (u : URL) : String :=
  let scheme := if u.Scheme ≠ "" then u.Scheme ++ ":" else ""
  let authority :=
    if u.Scheme ≠ "" ∨ u.Host ≠ "" then
      (if u.Host ≠ "" ∨ u.Path ≠ "" then "//" else "") ++ escape shouldEscapeHost u.Host
    else ""
  let path := escapedPath u.Path
  let slash := if path ≠ "" ∧ path.data.head? ≠ some '/' ∧ u.Host ≠ "" then "/" else ""
  let dot :=
    if u.Scheme = "" ∧ u.Host = "" ∧ (path.data.takeWhile (fun c => c != '/')).contains ':'
    then "./" else ""
  let query := if u.RawQuery ≠ "" then "?" ++ u.RawQuery else ""
  scheme ++ authority ++ slash ++ dot ++ path ++ query

/-- Whether a host has no byte that net/url escapes. -/
def plainHost (h : String) : Bool :=
  h.data.all (fun c => c.toNat < 128 && !shouldEscapeHost c.toNat)

/-- The function `shouldEscape(c, encodeQueryComponent)` of net/url: only ASCII letters,
digits and `-`, `_`, `.`, `~` stay as they are. -/
def shouldEscape (c : Nat) : Bool :=
  if (97 ≤ c ∧ c ≤ 122) ∨ (65 ≤ c ∧ c ≤ 90) ∨ (48 ≤ c ∧ c ≤ 57) then false
  else if c = 45 ∨ c = 95 ∨ c = 46 ∨ c = 126 then false
  else true

/-- One byte as `url.QueryEscape` writes it. -/
def escapeByte (b : Nat) : List Char :=
  if shouldEscape b then
    if b = 32 then ['+'] else ['%', upperhex.getD (b / 16) '0', upperhex.getD (b % 16) '0']
  else [Char.ofNat b]

/-- Go `url.QueryEscape`. -/
def QueryEscape (s : String) : String :=
  String.mk (s.data.flatMap (fun c => (utf8Bytes c).flatMap escapeByte))

/-- Go `url.Values.Encode` for values listed in key order: `key=value` pairs, both sides
query-escaped, joined by `&`. -/
def Values.Encode (v : List (String × List String)) : String :=
  "&".intercalate
    (v.flatMap (fun kv => kv.2.map (fun x => QueryEscape kv.1 ++ "=" ++ QueryEscape x)))

/-! ## Identifiers -/

/-- A `uuid.UUID`: sixteen bytes. -/
structure UUID where
  bytes : List (Fin 256)
  size : bytes.length = 16
  deriving DecidableEq

/-- Lower-case hexadecimal digits of encoding/hex. -/
def hextable : List Char := "0123456789abcdef".data

/-- Go `hex.Encode` of one byte: two digits. -/
def hexByte (b : Fin 256) : List Char :=
  [hextable.getD (b.val / 16) '0', hextable.getD (b.val % 16) '0']

/-- Go `hex.Encode`. -/
def hexEncode (bs : List (Fin 256)) : List Char := bs.flatMap hexByte

/-- The function `encodeHex` of the uuid package: groups of 4, 2, 2, 2 and 6 bytes in
hexadecimal, separated by `-`. -/
def encodeHex (bs : List (Fin 256)) : List Char :=
  hexEncode (bs.take 4) ++ '-' :: hexEncode ((bs.drop 4).take 2)
    ++ '-' :: hexEncode ((bs.drop 6).take 2)
    ++ '-' :: hexEncode ((bs.drop 8).take 2)
    ++ '-' :: hexEncode (bs.drop 10)

/-- Go `UUID.String`: the canonical text form. -/
def UUID.String (u : UUID) : String := String.mk (encodeHex u.bytes)

/-! ## The client, its collaborators and the response containers -/

/-- The client `Service`: of the wrapped `s.serv` the operations touch only the URL. -/
structure Service where
  URL : URL
  deriving DecidableEq, Repr

/-- What the operations read of an `*http.Response`. -/
structure Response where
  StatusCode : Int
  Body : String
  deriving DecidableEq, Repr

/-- The injected transport `s.serv`.  `NewRequest` takes method, URL and body (the headers
argument is always `nil`).  `Decode` reads the body and unmarshals it into the
destination: `parse` is the reading and JSON parsing of the body, `mismatch` the error
that is reported when the document does not fit the destination. -/
structure Transport where
  NewRequest : String → String → Option String → Except Err Response
  parse : String → Except Err JSON
  mismatch : String → Err

/-- The call `s.serv.Decode(r, &res)` for a destination with the given unmarshalling. -/
def Transport.Decode {γ : Type} (t : Transport) (r : Response)
    (unmarshal : JSON → γ → Option γ) (dest : γ) : Except Err γ :=
  match t.parse r.Body with
  | .error e => .error e
  | .ok j =>
    match unmarshal j dest with
    | none => .error (t.mismatch r.Body)
    | some v => .ok v

/-- A resource type (`Item`, `Tag`), whose declaration is not part of the two files: its
zero value, `dutil.MarshalReader` on it and `encoding/json` unmarshalling into it. -/
structure Model (R : Type) where
  zero : R
  MarshalReader : R → Except Err String
  unmarshal : JSON → R → Option R

/-- The local `type Data struct` of the single-resource operations: one field, named by
the tag `item` or `tag`. -/
structure Data (R : Type) where
  val : R

/-- The local `res` of the operations: `Data` tagged `data`, and `Errors`. -/
structure Res (D : Type) where
  Data : D
  Errors : Errors

/-- The collection type `Tags`, a `[]Tag`. -/
abbrev Tags (Tag : Type) := Slice Tag

/-- Fields of `Data` in `CreateItem` and `UpdateItem`: the embedded `Item`, tagged `item`;
in `CreateTag` and `UpdateTag`: the embedded `Tag`, tagged `tag`. -/
def Data.fields {R : Type} (m : Model R) (key : String) : List (Field (Data R)) :=
  [⟨key, fun j d => (m.unmarshal j d.val).map (fun x => ⟨x⟩)⟩]

/-- Fields of `Data` in the list reads: the embedded `Tags`, tagged `tags`. -/
def tagsFields {Tag : Type} (m : Model Tag) : List (Field (Data (Tags Tag))) :=
  [⟨"tags", fun j d => (unmarshalSlice m.zero m.unmarshal j d.val).map (fun x => ⟨x⟩)⟩]

/-- Fields of `res`: the embedded `Data`, tagged `data`, and `Errors` under the name
`errorsName`, which is the tag `errors` where the field has one and the Go field name
`Errors` where it has none. -/
def Res.fields {D : Type} (dataFields : List (Field D)) (errorsName : String) :
    List (Field (Res D)) :=
  [⟨"data", fun j r => (unmarshalStruct dataFields j r.Data).map (fun d => { r with Data := d })⟩,
   ⟨errorsName, fun j r => (unmarshalErrors j r.Errors).map (fun e => { r with Errors := e })⟩]

/-- The local `res` of the delete operations: only `Errors`. -/
structure DeleteRes where
  Errors : Errors

/-- Fields of `res` in the delete operations: `Errors`, tagged `errors`. -/
def deleteFields : List (Field DeleteRes) :=
  [⟨"errors", fun j r => (unmarshalErrors j r.Errors).map (fun e => ⟨e⟩)⟩]

/-- A collaborator call made by an operation. -/
inductive Call where
  | NewRequest (method url : String) (body : Option String)
  | Decode (r : Response)
  deriving DecidableEq, Repr

/-- What an operation leaves behind: its Go return values (`err = none` is a nil
`dutil.Error`), the client state after the call and the collaborator calls, in order. -/
structure Outcome (ρ : Type) where
  result : ρ
  err : Option Err
  s : Service
  calls : List Call

/-! ## The operations of `item.go`

`Item{}`, `Tag{}` are the zero value of the model; `Tags{}` is the empty slice that is
not nil. -/

/-- CreateItem of `item.go`. -/
def CreateItem {Item : Type} (m : Model Item) (t : Transport) (s : Service) (x : Item) :
    Outcome Item :=
  -- set path
  let s : Service := { s with URL := { s.URL with Path := "/item" } }
  -- marshal payload
  match m.MarshalReader x with
  | .error e => ⟨m.zero, some e, s, []⟩
  | .ok p =>
    -- do request
    let c1 := Call.NewRequest "POST" s.URL.String (some p)
    match t.NewRequest "POST" s.URL.String (some p) with
    | .error e => ⟨m.zero, some e, s, [c1]⟩
    | .ok r =>
      -- decode the response
      match t.Decode r (unmarshalStruct (Res.fields (Data.fields m "item") "errors"))
          ⟨⟨m.zero⟩, .nil⟩ with
      | .error e => ⟨m.zero, some e, s, [c1, .Decode r]⟩
      | .ok res =>
        if r.StatusCode ≠ 201 then
          ⟨m.zero, some ⟨r.StatusCode, res.Errors⟩, s, [c1, .Decode r]⟩
        else ⟨res.Data.val, none, s, [c1, .Decode r]⟩

/-- UpdateItem of `item.go`. -/
def UpdateItem {Item : Type} (m : Model Item) (t : Transport) (s : Service) (x : Item) :
    Outcome Item :=
  -- set path
  let s : Service := { s with URL := { s.URL with Path := "/item/-" } }
  -- marshal payload
  match m.MarshalReader x with
  | .error e => ⟨m.zero, some e, s, []⟩
  | .ok p =>
    -- do request
    let c1 := Call.NewRequest "PUT" s.URL.String (some p)
    match t.NewRequest "PUT" s.URL.String (some p) with
    | .error e => ⟨m.zero, some e, s, [c1]⟩
    | .ok r =>
      -- decode the response
      match t.Decode r (unmarshalStruct (Res.fields (Data.fields m "item") "errors"))
          ⟨⟨m.zero⟩, .nil⟩ with
      | .error e => ⟨m.zero, some e, s, [c1, .Decode r]⟩
      | .ok res =>
        if r.StatusCode ≠ 200 then
          ⟨m.zero, some ⟨r.StatusCode, res.Errors⟩, s, [c1, .Decode r]⟩
        else ⟨res.Data.val, none, s, [c1, .Decode r]⟩

/-- DeleteItem of `item.go`; it returns only the error. -/
def DeleteItem (t : Transport) (s : Service) (UUID : UUID) : Outcome Unit :=
  -- set path
  let s : Service := { s with URL := { s.URL with Path := "/item/-" } }
  -- set query string
  let qs := Values.Encode [("uuid", [UUID.String])]
  let s : Service := { s with URL := { s.URL with RawQuery := qs } }
  -- do request
  let c1 := Call.NewRequest "DELETE" s.URL.String none
  match t.NewRequest "DELETE" s.URL.String none with
  | .error e => ⟨(), some e, s, [c1]⟩
  | .ok r =>
    -- decode response
    match t.Decode r (unmarshalStruct deleteFields) ⟨.nil⟩ with
    | .error e => ⟨(), some e, s, [c1, .Decode r]⟩
    | .ok res =>
      if r.StatusCode ≠ 200 then
        ⟨(), some ⟨r.StatusCode, res.Errors⟩, s, [c1, .Decode r]⟩
      else ⟨(), none, s, [c1, .Decode r]⟩

/-! ## The operations of `tag.go` -/

/-- GetTags of `tag.go`. -/
def GetTags {Tag : Type} (m : Model Tag) (t : Transport) (s : Service) :
    Outcome (Tags Tag) :=
  -- set path
  let s : Service := { s with URL := { s.URL with Path := "/tag" } }
  -- do request
  let c1 := Call.NewRequest "GET" s.URL.String none
  match t.NewRequest "GET" s.URL.String none with
  | .error e => ⟨.mk [], some e, s, [c1]⟩
  | .ok r =>
    -- decode response
    match t.Decode r (unmarshalStruct (Res.fields (tagsFields m) "Errors"))
        ⟨⟨.nil⟩, .nil⟩ with
    | .error e => ⟨.mk [], some e, s, [c1, .Decode r]⟩
    | .ok res =>
      if r.StatusCode ≠ 200 then
        ⟨.mk [], some ⟨r.StatusCode, res.Errors⟩, s, [c1, .Decode r]⟩
      else ⟨res.Data.val, none, s, [c1, .Decode r]⟩

/-- GetUserTags of `tag.go`. -/
def GetUserTags {Tag : Type} (m : Model Tag) (t : Transport) (s : Service) (UUID : UUID) :
    Outcome (Tags Tag) :=
  -- set path
  let s : Service := { s with URL := { s.URL with Path := "/tag/user/-" } }
  -- set query string
  let qs := Values.Encode [("uuid", [UUID.String])]
  let s : Service := { s with URL := { s.URL with RawQuery := qs } }
  -- do request
  let c1 := Call.NewRequest "GET" s.URL.String none
  match t.NewRequest "GET" s.URL.String none with
  | .error e => ⟨.mk [], some e, s, [c1]⟩
  | .ok r =>
    -- decode response
    match t.Decode r (unmarshalStruct (Res.fields (tagsFields m) "Errors"))
        ⟨⟨.nil⟩, .nil⟩ with
    | .error e => ⟨.mk [], some e, s, [c1, .Decode r]⟩
    | .ok res =>
      if r.StatusCode ≠ 200 then
        ⟨.mk [], some ⟨r.StatusCode, res.Errors⟩, s, [c1, .Decode r]⟩
      else ⟨res.Data.val, none, s, [c1, .Decode r]⟩

/-- GetOrganisationTags of `tag.go`. -/
def GetOrganisationTags {Tag : Type} (m : Model Tag) (t : Transport) (s : Service) (UUID : UUID) :
    Outcome (Tags Tag) :=
  -- set path
  let s : Service := { s with URL := { s.URL with Path := "/tag/organisation/-" } }
  -- set query string
  let qs := Values.Encode [("uuid", [UUID.String])]
  let s : Service := { s with URL := { s.URL with RawQuery := qs } }
  -- do request
  let c1 := Call.NewRequest "GET" s.URL.String none
  match t.NewRequest "GET" s.URL.String none with
  | .error e => ⟨.mk [], some e, s, [c1]⟩
  | .ok r =>
    -- decode response
    match t.Decode r (unmarshalStruct (Res.fields (tagsFields m) "Errors"))
        ⟨⟨.nil⟩, .nil⟩ with
    | .error e => ⟨.mk [], some e, s, [c1, .Decode r]⟩
    | .ok res =>
      if r.StatusCode ≠ 200 then
        ⟨.mk [], some ⟨r.StatusCode, res.Errors⟩, s, [c1, .Decode r]⟩
      else ⟨res.Data.val, none, s, [c1, .Decode r]⟩

/-- CreateTag of `tag.go`. -/
def CreateTag {Tag : Type} (m : Model Tag) (t : Transport) (s : Service) (x : Tag) :
    Outcome Tag :=
  -- set path
  let s : Service := { s with URL := { s.URL with Path := "/tag" } }
  -- marshal payload
  match m.MarshalReader x with
  | .error e => ⟨m.zero, some e, s, []⟩
  | .ok p =>
    -- do request
    let c1 := Call.NewRequest "POST" s.URL.String (some p)
    match t.NewRequest "POST" s.URL.String (some p) with
    | .error e => ⟨m.zero, some e, s, [c1]⟩
    | .ok r =>
      -- decode the response
      match t.Decode r (unmarshalStruct (Res.fields (Data.fields m "tag") "errors"))
          ⟨⟨m.zero⟩, .nil⟩ with
      | .error e => ⟨m.zero, some e, s, [c1, .Decode r]⟩
      | .ok res =>
        if r.StatusCode ≠ 201 then
          ⟨m.zero, some ⟨r.StatusCode, res.Errors⟩, s, [c1, .Decode r]⟩
        else ⟨res.Data.val, none, s, [c1, .Decode r]⟩

/-- UpdateTag of `tag.go`. -/
def UpdateTag {Tag : Type} (m : Model Tag) (t : Transport) (s : Service) (x : Tag) :
    Outcome Tag :=
  -- set path
  let s : Service := { s with URL := { s.URL with Path := "/tag/-" } }
  -- marshal payload
  match m.MarshalReader x with
  | .error e => ⟨m.zero, some e, s, []⟩
  | .ok p =>
    -- do request
    let c1 := Call.NewRequest "PUT" s.URL.String (some p)
    match t.NewRequest "PUT" s.URL.String (some p) with
    | .error e => ⟨m.zero, some e, s, [c1]⟩
    | .ok r =>
      -- decode the response
      match t.Decode r (unmarshalStruct (Res.fields (Data.fields m "tag") "errors"))
          ⟨⟨m.zero⟩, .nil⟩ with
      | .error e => ⟨m.zero, some e, s, [c1, .Decode r]⟩
      | .ok res =>
        if r.StatusCode ≠ 200 then
          ⟨m.zero, some ⟨r.StatusCode, res.Errors⟩, s, [c1, .Decode r]⟩
        else ⟨res.Data.val, none, s, [c1, .Decode r]⟩

/-- DeleteTag of `tag.go`; it returns only the error. -/
def DeleteTag (t : Transport) (s : Service) (UUID : UUID) : Outcome Unit :=
  -- set path
  let s : Service := { s with URL := { s.URL with Path := "/tag/-" } }
  -- set query string
  let qs := Values.Encode [("uuid", [UUID.String])]
  let s : Service := { s with URL := { s.URL with RawQuery := qs } }
  -- do request
  let c1 := Call.NewRequest "DELETE" s.URL.String none
  match t.NewRequest "DELETE" s.URL.String none with
  | .error e => ⟨(), some e, s, [c1]⟩
  | .ok r =>
    -- decode response
    match t.Decode r (unmarshalStruct deleteFields) ⟨.nil⟩ with
    | .error e => ⟨(), some e, s, [c1, .Decode r]⟩
    | .ok res =>
      if r.StatusCode ≠ 200 then
        ⟨(), some ⟨r.StatusCode, res.Errors⟩, s, [c1, .Decode r]⟩
      else ⟨(), none, s, [c1, .Decode r]⟩

/-! ## Response envelopes -/

/-- The document of an error map: an object whose members are arrays of strings. -/
def errorsDoc (M : List (String × List String)) : JSON :=
  .obj (M.map (fun kv => (kv.1, .arr (kv.2.map .str))))

/-- The response envelope with members `message`, `data` and `errors`, in this order. -/
def envelope (msg : String) (data errors : JSON) : JSON :=
  .obj [("message", .str msg), ("data", data), ("errors", errors)]

/-- The map that the Go assignments `m[k] = v`, made in the order of `M`, build. -/
def mapOf (M : List (String × List String)) : List (String × Slice String) :=
  M.foldl (fun m kv => assocSet kv.1 (.mk kv.2) m) []

/-! ## A concrete resource and concrete collaborators, to run the operations on -/

/-- A resource with a single descriptive field. -/
structure Label where
  Name : String
  deriving DecidableEq, Repr

/-- The model of `Label`: its JSON member is `name`; its encoding never fails. -/
def labelModel : Model Label where
  zero := ⟨""⟩
  MarshalReader := fun l => .ok ("name=" ++ l.Name)
  unmarshal := unmarshalStruct [⟨"name", fun j l => (unmarshalString j l.Name).map Label.mk⟩]

/-- A model of `Label` whose encoding always fails with the given error. -/
def failingModel (e : Err) : Model Label :=
  { labelModel with MarshalReader := fun _ => .error e }

/-- A transport that answers every request with the given status and document. -/
def reply (status : Int) (doc : JSON) : Transport where
  NewRequest := fun _ _ _ => .ok ⟨status, "body"⟩
  parse := fun _ => .ok doc
  mismatch := fun _ => ⟨500, .mk [("unmarshal", .mk ["type mismatch"])]⟩

/-- A transport that answers with the given status and a body that cannot be parsed. -/
def garbled (status : Int) (e : Err) : Transport where
  NewRequest := fun _ _ _ => .ok ⟨status, "body"⟩
  parse := fun _ => .error e
  mismatch := fun _ => e

/-- A client as `NewService` leaves it in `TestNewService`. -/
def client : Service := ⟨⟨"https", "bank.dottics.com", "", ""⟩⟩

/-- A client whose base URL has no scheme. -/
def schemeless : Service := ⟨⟨"", "bank.dottics.com", "", ""⟩⟩

/-- A client whose host has bytes that net/url escapes. -/
def umlautHost : Service := ⟨⟨"https", "bänk.dottics.com", "", ""⟩⟩

/-- The identifier used by `TestService_DeleteBankAccount`. -/
def sampleUUID : UUID :=
  ⟨[0xe6, 0xb7, 0xf9, 0x86, 0x30, 0x7c, 0x41, 0x47, 0xa3, 0x4e, 0xf9, 0x24, 0x79, 0x07, 0x99,
    0xbb], rfl⟩

/-- The error map of the test case "permission required". -/
def permission : List (String × List String) :=
  [("permission", ["Please ensure you have permission"])]

/-! ## Counting collaborator calls -/

/-- Whether a call is a `NewRequest`. -/
def Call.isNewRequest : Call → Bool
  | .NewRequest _ _ _ => true
  | .Decode _ => false

/-- Whether a call is a `Decode`. -/
def Call.isDecode : Call → Bool
  | .NewRequest _ _ _ => false
  | .Decode _ => true

/-- Number of `NewRequest` calls among the calls of an operation. -/
def requests (cs : List Call) : Nat := (cs.filter Call.isNewRequest).length

/-- Number of `Decode` calls among the calls of an operation. -/
def decodes (cs : List Call) : Nat := (cs.filter Call.isDecode).length

/-! ## Owned resources

The declarations of the resource records are not part of `item.go` and `tag.go`; the
record below follows the data model of the specification and the bodies and literals of
`bank_account_test.go`. -/

/-- The zero identifier `uuid.UUID{}`. -/
def UUID.zero : UUID := ⟨List.replicate 16 0, rfl⟩

/-- Value of a hexadecimal digit, given as a byte; `none` for every other byte. -/
def xvalue (b : Nat) : Option Nat :=
  if 48 ≤ b ∧ b ≤ 57 then some (b - 48)
  else if 97 ≤ b ∧ b ≤ 102 then some (b - 87)
  else if 65 ≤ b ∧ b ≤ 70 then some (b - 55)
  else none

/-- The function `xtob` of the uuid package: two hexadecimal digits to a byte. -/
def xtob (x1 x2 : Nat) : Option (Fin 256) :=
  match xvalue x1, xvalue x2 with
  | some a, some b => some ⟨(a * 16 + b) % 256, Nat.mod_lt _ (by decide)⟩
  | _, _ => none

/-- Consecutive pairs of hexadecimal digits to bytes. -/
def hexPairs : List Nat → Option (List (Fin 256))
  | [] => some []
  | [_] => none
  | x1 :: x2 :: rest =>
    match xtob x1 x2, hexPairs rest with
    | some b, some bs => some (b :: bs)
    | _, _ => none

/-- Sixteen bytes as an identifier. -/
def UUID.ofBytes (bs : List (Fin 256)) : Option UUID :=
  if h : bs.length = 16 then some ⟨bs, h⟩ else none

/-- The tail of `uuid.Parse` for a text of at least 36 bytes: `-` at the positions 8, 13,
18 and 23, and hexadecimal digits in the five groups between them. -/
def parseGroups (s : List Nat) : Option UUID :=
  if s.getD 8 0 ≠ 45 ∨ s.getD 13 0 ≠ 45 ∨ s.getD 18 0 ≠ 45 ∨ s.getD 23 0 ≠ 45 then none
  else
    match hexPairs (s.take 8 ++ (s.drop 9).take 4 ++ (s.drop 14).take 4
        ++ (s.drop 19).take 4 ++ (s.drop 24).take 12) with
    | some bs => UUID.ofBytes bs
    | none => none

/-- The bytes of `urn:uuid:` in upper case. -/
def urn : List Nat := "URN:UUID:".data.map Char.toNat

/-- ASCII upper case of a byte. -/
def upperByte (b : Nat) : Nat := if 97 ≤ b ∧ b ≤ 122 then b - 32 else b

/-- Go `uuid.Parse`, which `UnmarshalText` of a `uuid.UUID` runs on the JSON string: the
canonical form of 36 bytes, the same with the prefix `urn:uuid:` or in braces, or 32
hexadecimal digits. -/
def uuid.Parse (s : String) : Option UUID :=
  let b := s.data.flatMap utf8Bytes
  if b.length = 36 then parseGroups b
  else if b.length = 45 then
    if (b.take 9).map upperByte = urn then parseGroups (b.drop 9) else none
  else if b.length = 38 then parseGroups (b.drop 1)
  else if b.length = 32 then
    match hexPairs b with
    | some bs => UUID.ofBytes bs
    | none => none
  else none

/-- Unmarshal into a `uuid.UUID`: `null` has no effect on the array, a string is parsed,
every other JSON value is a type mismatch. -/
def unmarshalUUID : JSON → UUID → Option UUID
  | .null, cur => some cur
  | .str s, _ => uuid.Parse s
  | _, _ => none

/-- Modelled from the spec: the record of an owned resource (bank account, item), whose
declaration is not among the source files: its identity and its two owner references,
under the member names `uuid`, `user_uuid` and `organisation_uuid` of the response
bodies.  Descriptive fields and timestamps play no part in ownership and are left out. -/
structure Resource where
  UUID : Bankserv.UUID
  UserUUID : Bankserv.UUID
  OrganisationUUID : Bankserv.UUID
  deriving DecidableEq

/-- Modelled from the spec: the fields of `Resource` as `encoding/json` sees them. -/
def resourceFields : List (Field Resource) :=
  [⟨"uuid", fun j r => (unmarshalUUID j r.UUID).map (fun u => { r with UUID := u })⟩,
   ⟨"user_uuid", fun j r => (unmarshalUUID j r.UserUUID).map (fun u => { r with UserUUID := u })⟩,
   ⟨"organisation_uuid", fun j r =>
      (unmarshalUUID j r.OrganisationUUID).map (fun u => { r with OrganisationUUID := u })⟩]

/-- Modelled from the spec: the model of `Resource`; its encoding, a flat record of three
identifiers in their text form, never fails. -/
def resourceModel : Model Resource where
  zero := ⟨UUID.zero, UUID.zero, UUID.zero⟩
  MarshalReader := fun r =>
    .ok ("\x7b\"uuid\":\"" ++ r.UUID.String ++ "\",\"user_uuid\":\"" ++ r.UserUUID.String
      ++ "\",\"organisation_uuid\":\"" ++ r.OrganisationUUID.String ++ "\"\x7d")
  unmarshal := unmarshalStruct resourceFields

/-- The document of a resource: the identity and owner members, followed by other
members. -/
def resourceDoc (jid ju jo : JSON) (rest : List (String × JSON)) : JSON :=
  .obj (("uuid", jid) :: ("user_uuid", ju) :: ("organisation_uuid", jo) :: rest)

/-- The members of the test bodies that `Resource` has no field for. -/
def otherMembers : List (String × JSON) :=
  [("account_number", .str "098765432109"), ("active", .bool true),
   ("create_date", .str "2022-06-17T21:57:12.000Z"),
   ("update_date", .str "2022-06-17T21:57:12.000Z")]

/-- The user identifier of the test case "create user bank account". -/
def ownerUUID : UUID :=
  ⟨[0xe4, 0xbd, 0x19, 0x4d, 0x41, 0xe7, 0x4f, 0x27, 0xa4, 0xa8, 0x16, 0x16, 0x85, 0xa9, 0xb8,
    0xb8], rfl⟩

/-! ## Lemmas on decoding -/

/-- An array of strings decodes to the list of its strings. -/
theorem unmarshalElems_strs (v : List String) (old : List String) :
    unmarshalElems "" unmarshalString (v.map JSON.str) old = some v := by
  induction v generalizing old with
  | nil => rfl
  | cons a v ih => simp [unmarshalElems, unmarshalString, ih]

/-- The members of an error document are bound one after the other. -/
theorem membersInto_errors (M : List (String × List String))
    (acc : List (String × Slice String)) :
    membersInto (M.map (fun kv => (kv.1, JSON.arr (kv.2.map JSON.str)))) acc
      = some (M.foldl (fun m kv => assocSet kv.1 (Slice.mk kv.2) m) acc) := by
  induction M generalizing acc with
  | nil => rfl
  | cons kv M ih => simp [membersInto, unmarshalSlice, unmarshalElems_strs, ih]

/-- An error document decodes, into a nil map, to the map of its members. -/
theorem unmarshalErrors_errorsDoc (M : List (String × List String)) :
    unmarshalErrors (errorsDoc M) Errors.nil = some (Errors.mk (mapOf M)) := by
  simp [unmarshalErrors, errorsDoc, membersInto_errors, Errors.bindings, mapOf]

/-- Binding a key that the map does not have appends the binding. -/
theorem assocSet_fresh {β : Type} (k : String) (v : β) (m : List (String × β))
    (h : k ∉ m.map Prod.fst) : assocSet k v m = m ++ [(k, v)] := by
  induction m with
  | nil => rfl
  | cons kv m ih =>
    obtain ⟨k', v'⟩ := kv
    simp only [List.map_cons, List.mem_cons, not_or] at h
    have hk : k' ≠ k := fun e => h.1 e.symm
    simp [assocSet, hk, ih h.2]

/-- Bindings with pairwise different keys are appended in order. -/
theorem foldl_assocSet_nodup (M : List (String × List String))
    (acc : List (String × Slice String))
    (h : (acc.map Prod.fst ++ M.map Prod.fst).Nodup) :
    M.foldl (fun m kv => assocSet kv.1 (Slice.mk kv.2) m) acc
      = acc ++ M.map (fun kv => (kv.1, Slice.mk kv.2)) := by
  induction M generalizing acc with
  | nil => simp
  | cons kv M ih =>
    have hfresh : kv.1 ∉ acc.map Prod.fst := by
      intro hmem
      have := (List.nodup_append.mp h).2.2
      exact this hmem (by simp)
    have h' : ((acc ++ [(kv.1, Slice.mk kv.2)]).map Prod.fst ++ M.map Prod.fst).Nodup := by
      simpa [List.append_assoc] using h
    simp only [List.foldl_cons, assocSet_fresh kv.1 (Slice.mk kv.2) acc hfresh]
    rw [ih _ h']
    simp

/-- An error map whose keys are pairwise different is built as it is written. -/
theorem mapOf_of_nodup (M : List (String × List String)) (h : (M.map Prod.fst).Nodup) :
    mapOf M = M.map (fun kv => (kv.1, Slice.mk kv.2)) := by
  have := foldl_assocSet_nodup M [] (by simpa using h)
  simpa [mapOf] using this

theorem foldName_data : foldName "data" = "DATA" := by decide

theorem foldName_message : foldName "message" = "MESSAGE" := by decide

theorem foldName_errors : foldName "errors" = "ERRORS" := by decide

theorem foldName_Errors : foldName "Errors" = "ERRORS" := by decide

/-- The container of the list reads filled from a failure envelope: the member `errors`
is stored in the field `Errors`, which has no tag, by the case-insensitive match. -/
theorem unmarshal_tags_failure {Tag : Type} (m : Model Tag) (msg : String)
    (M : List (String × List String)) :
    unmarshalStruct (Res.fields (tagsFields m) "Errors")
      (envelope msg (.obj []) (errorsDoc M)) ⟨⟨.nil⟩, .nil⟩
      = some ⟨⟨.nil⟩, .mk (mapOf M)⟩ := by
  simp [unmarshalStruct, envelope, objectInto, findField, Res.fields, foldName_data,
    foldName_message, foldName_errors, foldName_Errors, unmarshalErrors_errorsDoc]

/-- The container of the list reads filled from an envelope whose `data.tags` is `[]`. -/
theorem unmarshal_tags_empty {Tag : Type} (m : Model Tag) (msg : String)
    (M : List (String × List String)) :
    unmarshalStruct (Res.fields (tagsFields m) "Errors")
      (envelope msg (.obj [("tags", .arr [])]) (errorsDoc M)) ⟨⟨.nil⟩, .nil⟩
      = some ⟨⟨.mk []⟩, .mk (mapOf M)⟩ := by
  simp [unmarshalStruct, envelope, objectInto, findField, Res.fields, tagsFields,
    unmarshalSlice, unmarshalElems, foldName_data, foldName_message, foldName_errors,
    foldName_Errors, unmarshalErrors_errorsDoc]

theorem findField_delete_data : (findField deleteFields "data").isNone = true := by
  simp [findField, deleteFields, foldName_data, foldName_errors]

/-- Members named `data` are skipped by the container of the delete operations. -/
theorem objectInto_delete_data (kvs : List (String × JSON)) (cur : DeleteRes) :
    objectInto deleteFields (kvs.filter (fun kv => kv.1 != "data")) cur
      = objectInto deleteFields kvs cur := by
  induction kvs generalizing cur with
  | nil => rfl
  | cons kv kvs ih =>
    obtain ⟨k, v⟩ := kv
    by_cases hk : k = "data"
    · subst hk
      have hf : findField deleteFields "data" = none := by
        simpa using findField_delete_data
      simp [objectInto, hf, ih]
    · simp only [List.filter_cons, bne_iff_ne, ne_eq, hk, not_false_eq_true, decide_True,
        ite_true, objectInto]
      cases findField deleteFields k with
      | none => simp [ih]
      | some f =>
        simp only []
        cases hset : f.set v cur with
        | none => rfl
        | some c => simp [ih]

/-- The container of the delete operations filled from an envelope: the member `errors`
is stored in the field `Errors`, whatever the member `data` holds. -/
theorem unmarshal_delete_envelope (msg : String) (d : JSON)
    (M : List (String × List String)) :
    unmarshalStruct deleteFields (envelope msg d (errorsDoc M)) ⟨.nil⟩
      = some ⟨.mk (mapOf M)⟩ := by
  simp [unmarshalStruct, envelope, objectInto, findField, deleteFields, foldName_data,
    foldName_message, foldName_errors, unmarshalErrors_errorsDoc]

/-! ## Lemmas on identifiers and URLs -/

theorem escape_dash : (utf8Bytes '-').flatMap escapeByte = ['-'] := by decide

/-- A hexadecimal digit is not escaped in a query component. -/
theorem escape_hex (i : Nat) :
    (utf8Bytes (hextable.getD i '0')).flatMap escapeByte = [hextable.getD i '0'] := by
  by_cases h : i < 16
  · interval_cases i <;> decide
  · have : hextable.getD i '0' = '0' := by
      apply List.getD_eq_default
      simp [hextable]; omega
    rw [this]; decide

theorem flatMap_id_of {α : Type} (f : α → List α) (l : List α) (h : ∀ c ∈ l, f c = [c]) :
    l.flatMap f = l := by
  induction l with
  | nil => rfl
  | cons a l ih =>
    simp only [List.flatMap_cons, h a (by simp), List.singleton_append]
    rw [ih (fun c hc => h c (by simp [hc]))]

theorem escape_hexEncode (bs : List (Fin 256)) :
    ∀ c ∈ hexEncode bs, (utf8Bytes c).flatMap escapeByte = [c] := by
  intro c hc
  simp only [hexEncode, List.mem_flatMap, hexByte, List.mem_cons, List.mem_singleton,
    List.not_mem_nil, or_false] at hc
  obtain ⟨b, _, rfl | rfl⟩ := hc <;> exact escape_hex _

theorem escape_encodeHex (bs : List (Fin 256)) :
    ∀ c ∈ encodeHex bs, (utf8Bytes c).flatMap escapeByte = [c] := by
  intro c hc
  simp only [encodeHex, List.mem_append, List.mem_cons, or_assoc] at hc
  rcases hc with h | rfl | h | rfl | h | rfl | h | rfl | h
  all_goals first | exact escape_dash | exact escape_hexEncode _ c h

/-- The canonical text of an identifier is its own query escaping. -/
theorem QueryEscape_uuid (u : UUID) : QueryEscape u.String = u.String := by
  simp only [QueryEscape, UUID.String]
  rw [flatMap_id_of _ _ (escape_encodeHex u.bytes)]

theorem length_hexEncode (bs : List (Fin 256)) : (hexEncode bs).length = 2 * bs.length := by
  induction bs with
  | nil => rfl
  | cons b bs ih => simp [hexEncode, hexByte] at ih ⊢; omega

/-- The canonical text of an identifier has 36 characters. -/
theorem length_uuid (u : UUID) : u.String.length = 36 := by
  have h := u.size
  simp only [UUID.String, String.length, encodeHex, List.length_append, List.length_cons,
    length_hexEncode, List.length_take, List.length_drop, h]
  omega

/-- The query string that the identifier-in-query operations set. -/
theorem encode_uuid (u : UUID) :
    Values.Encode [("uuid", [u.String])] = "uuid=" ++ u.String := by
  have h : QueryEscape "uuid" = "uuid" := by decide
  simp [Values.Encode, QueryEscape_uuid, h, String.intercalate, String.intercalate.go]

/-- The empty path is its own escaping. -/
theorem escapedPath_empty : escapedPath "" = "" := by decide

/-- Rendering of a URL with a scheme, a path whose escaping starts with `/`, and a query. -/
theorem String_of (u : URL) (h1 : u.Scheme ≠ "")
    (h2 : (escapedPath u.Path).data.head? = some '/') (h3 : u.RawQuery ≠ "") :
    u.String = u.Scheme ++ "://" ++ escape shouldEscapeHost u.Host ++ escapedPath u.Path
      ++ "?" ++ u.RawQuery := by
  have hp : u.Path ≠ "" := by
    intro h; rw [h, escapedPath_empty] at h2; simp at h2
  have hp2 : escapedPath u.Path ≠ "" := by
    intro h; rw [h] at h2; simp at h2
  apply String.ext
  simp [URL.String, h1, h2, h3, hp, hp2, String.data_append]

/-- Rendering of a URL with a scheme, a path whose escaping starts with `/`, and no
query. -/
theorem String_of_noquery (u : URL) (h1 : u.Scheme ≠ "")
    (h2 : (escapedPath u.Path).data.head? = some '/') (h3 : u.RawQuery = "") :
    u.String = u.Scheme ++ "://" ++ escape shouldEscapeHost u.Host ++ escapedPath u.Path := by
  have hp : u.Path ≠ "" := by
    intro h; rw [h, escapedPath_empty] at h2; simp at h2
  have hp2 : escapedPath u.Path ≠ "" := by
    intro h; rw [h] at h2; simp at h2
  apply String.ext
  simp [URL.String, h1, h2, h3, hp, hp2, String.data_append]

/-- A host without a byte that net/url escapes is written as it is. -/
theorem escape_plainHost (h : String) (hh : plainHost h = true) :
    escape shouldEscapeHost h = h := by
  apply String.ext
  simp only [escape]
  apply flatMap_id_of
  intro c hc
  have hcc := (List.all_eq_true.mp hh) c hc
  simp only [Bool.and_eq_true, decide_eq_true_eq, Bool.not_eq_true'] at hcc
  obtain ⟨hlt, hne⟩ := hcc
  simp [utf8Bytes, hlt, hne, Char.ofNat_toNat]

/-- The URL of an identifier-in-query request, for a path that needs no escaping. -/
theorem request_url (b : URL) (path : String) (u : UUID) (hs : b.Scheme ≠ "")
    (hp : path.data.head? = some '/') (he : escapedPath path = path) :
    URL.String { b with Path := path, RawQuery := Values.Encode [("uuid", [u.String])] }
      = b.Scheme ++ "://" ++ escape shouldEscapeHost b.Host ++ path ++ "?uuid="
        ++ u.String := by
  have hq : Values.Encode [("uuid", [u.String])] ≠ "" := by
    rw [encode_uuid]
    intro h
    have := congrArg String.data h
    simp [String.data_append] at this
  have h := String_of ⟨b.Scheme, b.Host, path, Values.Encode [("uuid", [u.String])]⟩ hs
    (by simpa only [he] using hp) hq
  rw [h, encode_uuid]
  simp only [he]
  apply String.ext
  simp [String.data_append]

/-- The URL of a request of an operation that sets only the path, on a client whose
query string is empty. -/
theorem plain_url (b : URL) (path : String) (hs : b.Scheme ≠ "")
    (hp : path.data.head? = some '/') (he : escapedPath path = path)
    (hq : b.RawQuery = "") :
    URL.String { b with Path := path }
      = b.Scheme ++ "://" ++ escape shouldEscapeHost b.Host ++ path := by
  have h := String_of_noquery ⟨b.Scheme, b.Host, path, b.RawQuery⟩ hs
    (by simpa only [he] using hp) hq
  simpa only [he] using h

/-- The URL of a request of an operation that sets only the path, on a client whose
query string is not empty: the query string of the client is sent along. -/
theorem stale_url (b : URL) (path : String) (hs : b.Scheme ≠ "")
    (hp : path.data.head? = some '/') (he : escapedPath path = path)
    (hq : b.RawQuery ≠ "") :
    URL.String { b with Path := path }
      = b.Scheme ++ "://" ++ escape shouldEscapeHost b.Host ++ path ++ "?"
        ++ b.RawQuery := by
  have h := String_of ⟨b.Scheme, b.Host, path, b.RawQuery⟩ hs
    (by simpa only [he] using hp) hq
  simpa only [he] using h

/-! ## Lemmas on owned resources -/

theorem utf8Bytes_hex (i : Nat) :
    utf8Bytes (hextable.getD i '0') = [(hextable.getD i '0').toNat] := by
  by_cases h : i < 16
  · interval_cases i <;> decide
  · have : hextable.getD i '0' = '0' := by
      apply List.getD_eq_default
      simp [hextable]; omega
    rw [this]; decide

theorem utf8Bytes_dash : utf8Bytes '-' = [45] := by decide

theorem xvalue_hex (i : Nat) (h : i < 16) : xvalue (hextable.getD i '0').toNat = some i := by
  interval_cases i <;> decide

/-- Two digits written by `hex.Encode` are read back by `xtob` as the byte. -/
theorem xtob_hex (b : Fin 256) :
    xtob (hextable.getD (b.val / 16) '0').toNat (hextable.getD (b.val % 16) '0').toNat
      = some b := by
  have h1 : b.val / 16 < 16 := by have := b.isLt; omega
  have h2 : b.val % 16 < 16 := by omega
  simp only [xtob, xvalue_hex _ h1, xvalue_hex _ h2]
  congr 1
  apply Fin.ext
  simp only
  have := b.isLt
  omega

/-- The canonical text of an identifier parses to the identifier. -/
theorem Parse_String (u : UUID) : uuid.Parse u.String = some u := by
  obtain ⟨bs, h⟩ := u
  rcases bs with _ | ⟨b0, _ | ⟨b1, _ | ⟨b2, _ | ⟨b3, _ | ⟨b4, _ | ⟨b5, _ | ⟨b6, _ | ⟨b7,
    _ | ⟨b8, _ | ⟨b9, _ | ⟨b10, _ | ⟨b11, _ | ⟨b12, _ | ⟨b13, _ | ⟨b14, _ | ⟨b15,
    _ | ⟨b16, bs⟩⟩⟩⟩⟩⟩⟩⟩⟩⟩⟩⟩⟩⟩⟩⟩⟩
  all_goals simp only [List.length_cons, List.length_nil] at h
  all_goals try omega
  simp only [uuid.Parse, UUID.String, encodeHex, hexEncode, hexByte, List.take, List.drop,
    List.flatMap_cons, List.flatMap_nil, List.cons_append, List.nil_append, List.append_nil,
    utf8Bytes_hex, utf8Bytes_dash, List.singleton_append, List.length_cons, List.length_nil]
  simp only [parseGroups, List.getD_cons_succ, List.getD_cons_zero, List.take, List.drop,
    List.cons_append, List.nil_append, List.append_nil, hexPairs, xtob_hex, UUID.ofBytes]
  simp

/-- Members that match no field leave the destination as it is. -/
theorem objectInto_unmatched {σ : Type} (fields : List (Field σ))
    (rest : List (String × JSON)) (cur : σ)
    (h : ∀ kv ∈ rest, findField fields kv.1 = none) :
    objectInto fields rest cur = some cur := by
  induction rest with
  | nil => rfl
  | cons kv rest ih =>
    obtain ⟨k, v⟩ := kv
    have hk : findField fields k = none := h (k, v) (by simp)
    simp only [objectInto, hk]
    exact ih (fun kv hkv => h kv (by simp [hkv]))

theorem foldName_uuid : foldName "uuid" = "UUID" := by decide

theorem foldName_user_uuid : foldName "user_uuid" = "USER_UUID" := by decide

theorem foldName_organisation_uuid :
    foldName "organisation_uuid" = "ORGANISATION_UUID" := by decide

/-- A member whose name is, up to case, none of the three names of `Resource` matches no
field of it. -/
theorem findField_resource_none (k : String)
    (h : foldName k ∉ ["UUID", "USER_UUID", "ORGANISATION_UUID"]) :
    findField resourceFields k = none := by
  simp only [List.mem_cons, List.mem_singleton, List.not_mem_nil, or_false, not_or] at h
  obtain ⟨h1, h2, h3⟩ := h
  have e1 : k ≠ "uuid" := fun e => h1 (by rw [e, foldName_uuid])
  have e2 : k ≠ "user_uuid" := fun e => h2 (by rw [e, foldName_user_uuid])
  have e3 : k ≠ "organisation_uuid" := fun e => h3 (by rw [e, foldName_organisation_uuid])
  have b1 : ("uuid" == k) = false := beq_eq_false_iff_ne.mpr (Ne.symm e1)
  have b2 : ("user_uuid" == k) = false := beq_eq_false_iff_ne.mpr (Ne.symm e2)
  have b3 : ("organisation_uuid" == k) = false := beq_eq_false_iff_ne.mpr (Ne.symm e3)
  have c1 : ("UUID" == foldName k) = false := beq_eq_false_iff_ne.mpr (Ne.symm h1)
  have c2 : ("USER_UUID" == foldName k) = false := beq_eq_false_iff_ne.mpr (Ne.symm h2)
  have c3 : ("ORGANISATION_UUID" == foldName k) = false :=
    beq_eq_false_iff_ne.mpr (Ne.symm h3)
  simp only [findField, resourceFields, List.find?, foldName_uuid, foldName_user_uuid,
    foldName_organisation_uuid, b1, b2, b3, c1, c2, c3]

/-- The document of a resource decodes, into the zero resource, to the three identifiers
that its members decode to. -/
theorem unmarshal_resourceDoc (jid ju jo : JSON) (rest : List (String × JSON))
    (i a b : UUID)
    (hrest : ∀ kv ∈ rest, foldName kv.1 ∉ ["UUID", "USER_UUID", "ORGANISATION_UUID"])
    (hi : unmarshalUUID jid UUID.zero = some i) (ha : unmarshalUUID ju UUID.zero = some a)
    (hb : unmarshalUUID jo UUID.zero = some b) :
    unmarshalStruct resourceFields (resourceDoc jid ju jo rest) resourceModel.zero
      = some ⟨i, a, b⟩ := by
  have hskip := objectInto_unmatched resourceFields rest ⟨i, a, b⟩
    (fun kv hkv => findField_resource_none kv.1 (hrest kv hkv))
  simp [unmarshalStruct, resourceDoc, objectInto, findField, resourceFields, resourceModel,
    foldName_uuid, foldName_user_uuid, foldName_organisation_uuid, hi, ha, hb] at hskip ⊢
  exact hskip

/-- The container of a single-resource operation filled from an envelope whose data
holds the document of the resource under the key of the operation. -/
theorem unmarshal_single_envelope {R : Type} (m : Model R) (key msg : String) (d : JSON)
    (M : List (String × List String)) (v : R) (hkey : key = "item" ∨ key = "tag")
    (hv : m.unmarshal d m.zero = some v) :
    unmarshalStruct (Res.fields (Data.fields m key) "errors")
      (envelope msg (.obj [(key, d)]) (errorsDoc M)) ⟨⟨m.zero⟩, .nil⟩
      = some ⟨⟨v⟩, .mk (mapOf M)⟩ := by
  rcases hkey with rfl | rfl <;>
  simp [unmarshalStruct, envelope, objectInto, findField, Res.fields, Data.fields,
    foldName_data, foldName_message, foldName_errors, unmarshalErrors_errorsDoc, hv]

/-! ## Claims -/

/-- C1. For CreateItem, UpdateItem, CreateTag and UpdateTag: when encoding, the transport
call and the decoding of the envelope succeed and the status is the expected one (201 for
the creates, 200 for the updates), the returned resource is the one decoded into
`res.Data` and the returned error is nil. -/
theorem single_resource_success {R : Type} (m : Model R) (t : Transport) (s : Service)
    (x : R) :
    (∀ p r res, m.MarshalReader x = .ok p →
      t.NewRequest "POST" (URL.String { s.URL with Path := "/item" }) (some p) = .ok r →
      t.Decode r (unmarshalStruct (Res.fields (Data.fields m "item") "errors"))
        ⟨⟨m.zero⟩, .nil⟩ = .ok res →
      r.StatusCode = 201 →
      (CreateItem m t s x).result = res.Data.val ∧ (CreateItem m t s x).err = none) ∧
    (∀ p r res, m.MarshalReader x = .ok p →
      t.NewRequest "PUT" (URL.String { s.URL with Path := "/item/-" }) (some p) = .ok r →
      t.Decode r (unmarshalStruct (Res.fields (Data.fields m "item") "errors"))
        ⟨⟨m.zero⟩, .nil⟩ = .ok res →
      r.StatusCode = 200 →
      (UpdateItem m t s x).result = res.Data.val ∧ (UpdateItem m t s x).err = none) ∧
    (∀ p r res, m.MarshalReader x = .ok p →
      t.NewRequest "POST" (URL.String { s.URL with Path := "/tag" }) (some p) = .ok r →
      t.Decode r (unmarshalStruct (Res.fields (Data.fields m "tag") "errors"))
        ⟨⟨m.zero⟩, .nil⟩ = .ok res →
      r.StatusCode = 201 →
      (CreateTag m t s x).result = res.Data.val ∧ (CreateTag m t s x).err = none) ∧
    (∀ p r res, m.MarshalReader x = .ok p →
      t.NewRequest "PUT" (URL.String { s.URL with Path := "/tag/-" }) (some p) = .ok r →
      t.Decode r (unmarshalStruct (Res.fields (Data.fields m "tag") "errors"))
        ⟨⟨m.zero⟩, .nil⟩ = .ok res →
      r.StatusCode = 200 →
      (UpdateTag m t s x).result = res.Data.val ∧ (UpdateTag m t s x).err = none) := by
  refine ⟨?_, ?_, ?_, ?_⟩ <;> intro p r res h1 h2 h3 h4
  · simp only [CreateItem, h1, h2, h3, h4]; simp
  · simp only [UpdateItem, h1, h2, h3, h4]; simp
  · simp only [CreateTag, h1, h2, h3, h4]; simp
  · simp only [UpdateTag, h1, h2, h3, h4]; simp

/-- Witness of C1: CreateItem against status 201 and an envelope whose `data.item` is the
created resource returns that resource and no error. -/
theorem single_resource_success_witness :
    (CreateItem labelModel
        (reply 201 (envelope "created" (.obj [("item", .obj [("name", .str "rent")])])
          (.obj []))) client ⟨"rent"⟩).result = ⟨"rent"⟩ ∧
    (CreateItem labelModel
        (reply 201 (envelope "created" (.obj [("item", .obj [("name", .str "rent")])])
          (.obj []))) client ⟨"rent"⟩).err = none :=
  (single_resource_success labelModel
      (reply 201 (envelope "created" (.obj [("item", .obj [("name", .str "rent")])])
        (.obj []))) client ⟨"rent"⟩).1
    "name=rent" ⟨201, "body"⟩ ⟨⟨⟨"rent"⟩⟩, .mk []⟩ rfl rfl rfl rfl

/-- C2. For CreateItem, UpdateItem, CreateTag and UpdateTag: when the transport call and
the decoding succeed and the status differs from the expected one, the returned resource
is the zero value, whatever `res.Data` holds, and the returned error is not nil, with
`Status` the status of the response and `Errors` the decoded errors map. -/
theorem single_resource_mismatch {R : Type} (m : Model R) (t : Transport) (s : Service)
    (x : R) :
    (∀ p r res, m.MarshalReader x = .ok p →
      t.NewRequest "POST" (URL.String { s.URL with Path := "/item" }) (some p) = .ok r →
      t.Decode r (unmarshalStruct (Res.fields (Data.fields m "item") "errors"))
        ⟨⟨m.zero⟩, .nil⟩ = .ok res →
      r.StatusCode ≠ 201 →
      (CreateItem m t s x).result = m.zero ∧
      (CreateItem m t s x).err = some ⟨r.StatusCode, res.Errors⟩) ∧
    (∀ p r res, m.MarshalReader x = .ok p →
      t.NewRequest "PUT" (URL.String { s.URL with Path := "/item/-" }) (some p) = .ok r →
      t.Decode r (unmarshalStruct (Res.fields (Data.fields m "item") "errors"))
        ⟨⟨m.zero⟩, .nil⟩ = .ok res →
      r.StatusCode ≠ 200 →
      (UpdateItem m t s x).result = m.zero ∧
      (UpdateItem m t s x).err = some ⟨r.StatusCode, res.Errors⟩) ∧
    (∀ p r res, m.MarshalReader x = .ok p →
      t.NewRequest "POST" (URL.String { s.URL with Path := "/tag" }) (some p) = .ok r →
      t.Decode r (unmarshalStruct (Res.fields (Data.fields m "tag") "errors"))
        ⟨⟨m.zero⟩, .nil⟩ = .ok res →
      r.StatusCode ≠ 201 →
      (CreateTag m t s x).result = m.zero ∧
      (CreateTag m t s x).err = some ⟨r.StatusCode, res.Errors⟩) ∧
    (∀ p r res, m.MarshalReader x = .ok p →
      t.NewRequest "PUT" (URL.String { s.URL with Path := "/tag/-" }) (some p) = .ok r →
      t.Decode r (unmarshalStruct (Res.fields (Data.fields m "tag") "errors"))
        ⟨⟨m.zero⟩, .nil⟩ = .ok res →
      r.StatusCode ≠ 200 →
      (UpdateTag m t s x).result = m.zero ∧
      (UpdateTag m t s x).err = some ⟨r.StatusCode, res.Errors⟩) := by
  refine ⟨?_, ?_, ?_, ?_⟩ <;> intro p r res h1 h2 h3 h4
  · simp only [CreateItem, h1, h2, h3]; simp [h4]
  · simp only [UpdateItem, h1, h2, h3]; simp [h4]
  · simp only [CreateTag, h1, h2, h3]; simp [h4]
  · simp only [UpdateTag, h1, h2, h3]; simp [h4]

/-- Witness of C2: UpdateTag against status 403 and an envelope that carries both a fully
populated `data.tag` and the `permission` error returns the zero tag and the error. -/
theorem single_resource_mismatch_witness :
    (UpdateTag labelModel
        (reply 403 (envelope "Forbidden" (.obj [("tag", .obj [("name", .str "food")])])
          (errorsDoc permission))) client ⟨"food"⟩).result = ⟨""⟩ ∧
    (UpdateTag labelModel
        (reply 403 (envelope "Forbidden" (.obj [("tag", .obj [("name", .str "food")])])
          (errorsDoc permission))) client ⟨"food"⟩).err
      = some ⟨403, .mk [("permission", .mk ["Please ensure you have permission"])]⟩ :=
  (single_resource_mismatch labelModel
      (reply 403 (envelope "Forbidden" (.obj [("tag", .obj [("name", .str "food")])])
        (errorsDoc permission))) client ⟨"food"⟩).2.2.2
    "name=food" ⟨403, "body"⟩
    ⟨⟨⟨"food"⟩⟩, .mk [("permission", .mk ["Please ensure you have permission"])]⟩
    rfl rfl rfl (by decide)

/-- C3. For GetTags, GetUserTags and GetOrganisationTags: on a response whose status is
not 200 and whose body is the envelope with an empty `data` and the error map `M` under
the lower-case member `errors`, the result has length 0 and the returned error is not
nil and carries the status and the map `M`, although the field `Errors` of the container
has no tag. -/
theorem list_read_failure {Tag : Type} (m : Model Tag) (t : Transport) (s : Service)
    (u : UUID) (msg : String) (M : List (String × List String)) :
    (∀ r, t.NewRequest "GET" (URL.String { s.URL with Path := "/tag" }) none = .ok r →
      r.StatusCode ≠ 200 →
      t.parse r.Body = .ok (envelope msg (.obj []) (errorsDoc M)) →
      (GetTags m t s).result.len = 0 ∧
      (GetTags m t s).err = some ⟨r.StatusCode, .mk (mapOf M)⟩) ∧
    (∀ r, t.NewRequest "GET" (URL.String { s.URL with
          Path := "/tag/user/-"
          RawQuery := Values.Encode [("uuid", [u.String])] }) none = .ok r →
      r.StatusCode ≠ 200 →
      t.parse r.Body = .ok (envelope msg (.obj []) (errorsDoc M)) →
      (GetUserTags m t s u).result.len = 0 ∧
      (GetUserTags m t s u).err = some ⟨r.StatusCode, .mk (mapOf M)⟩) ∧
    (∀ r, t.NewRequest "GET" (URL.String { s.URL with
          Path := "/tag/organisation/-"
          RawQuery := Values.Encode [("uuid", [u.String])] }) none = .ok r →
      r.StatusCode ≠ 200 →
      t.parse r.Body = .ok (envelope msg (.obj []) (errorsDoc M)) →
      (GetOrganisationTags m t s u).result.len = 0 ∧
      (GetOrganisationTags m t s u).err = some ⟨r.StatusCode, .mk (mapOf M)⟩) := by
  refine ⟨?_, ?_, ?_⟩ <;> intro r h1 h2 h3
  · simp only [GetTags, h1, Transport.Decode, h3, unmarshal_tags_failure]
    simp [h2, Slice.len, Slice.toList]
  · simp only [GetUserTags, h1, Transport.Decode, h3, unmarshal_tags_failure]
    simp [h2, Slice.len, Slice.toList]
  · simp only [GetOrganisationTags, h1, Transport.Decode, h3, unmarshal_tags_failure]
    simp [h2, Slice.len, Slice.toList]

/-- Witness of C3: GetUserTags against status 403 and the envelope of the test case
"permission required". -/
theorem list_read_failure_witness :
    (GetUserTags labelModel (reply 403 (envelope "Forbidden" (.obj []) (errorsDoc permission)))
        client sampleUUID).result.len = 0 ∧
    (GetUserTags labelModel (reply 403 (envelope "Forbidden" (.obj []) (errorsDoc permission)))
        client sampleUUID).err
      = some ⟨403, .mk [("permission", .mk ["Please ensure you have permission"])]⟩ :=
  (list_read_failure labelModel
      (reply 403 (envelope "Forbidden" (.obj []) (errorsDoc permission)))
      client sampleUUID "Forbidden" permission).2.1
    ⟨403, "body"⟩ rfl (by decide) rfl

/-- C4. For GetTags, GetUserTags and GetOrganisationTags: on status 200 and an envelope
whose `data.tags` is `[]`, the result is the empty collection that is not nil, and the
error is nil; on the failure path (a decoded response of another status) the result is
the same empty collection, with an error that is not nil, so the two outcomes differ
only in the error. -/
theorem list_read_empty {Tag : Type} (m : Model Tag) (t : Transport) (s : Service)
    (u : UUID) (msg : String) (M : List (String × List String)) :
    (∀ r, t.NewRequest "GET" (URL.String { s.URL with Path := "/tag" }) none = .ok r →
      r.StatusCode = 200 →
      t.parse r.Body = .ok (envelope msg (.obj [("tags", .arr [])]) (errorsDoc M)) →
      (GetTags m t s).result = .mk [] ∧ (GetTags m t s).result.isNil = false ∧
      (GetTags m t s).result.len = 0 ∧ (GetTags m t s).err = none) ∧
    (∀ r res, t.NewRequest "GET" (URL.String { s.URL with Path := "/tag" }) none = .ok r →
      t.Decode r (unmarshalStruct (Res.fields (tagsFields m) "Errors")) ⟨⟨.nil⟩, .nil⟩
        = .ok res →
      r.StatusCode ≠ 200 →
      (GetTags m t s).result = .mk [] ∧ (GetTags m t s).err ≠ none) ∧
    (∀ r, t.NewRequest "GET" (URL.String { s.URL with
          Path := "/tag/user/-"
          RawQuery := Values.Encode [("uuid", [u.String])] }) none = .ok r →
      r.StatusCode = 200 →
      t.parse r.Body = .ok (envelope msg (.obj [("tags", .arr [])]) (errorsDoc M)) →
      (GetUserTags m t s u).result = .mk [] ∧ (GetUserTags m t s u).result.isNil = false ∧
      (GetUserTags m t s u).result.len = 0 ∧ (GetUserTags m t s u).err = none) ∧
    (∀ r res, t.NewRequest "GET" (URL.String { s.URL with
          Path := "/tag/user/-"
          RawQuery := Values.Encode [("uuid", [u.String])] }) none = .ok r →
      t.Decode r (unmarshalStruct (Res.fields (tagsFields m) "Errors")) ⟨⟨.nil⟩, .nil⟩
        = .ok res →
      r.StatusCode ≠ 200 →
      (GetUserTags m t s u).result = .mk [] ∧ (GetUserTags m t s u).err ≠ none) ∧
    (∀ r, t.NewRequest "GET" (URL.String { s.URL with
          Path := "/tag/organisation/-"
          RawQuery := Values.Encode [("uuid", [u.String])] }) none = .ok r →
      r.StatusCode = 200 →
      t.parse r.Body = .ok (envelope msg (.obj [("tags", .arr [])]) (errorsDoc M)) →
      (GetOrganisationTags m t s u).result = .mk [] ∧ (GetOrganisationTags m t s u).result.isNil = false ∧
      (GetOrganisationTags m t s u).result.len = 0 ∧ (GetOrganisationTags m t s u).err = none) ∧
    (∀ r res, t.NewRequest "GET" (URL.String { s.URL with
          Path := "/tag/organisation/-"
          RawQuery := Values.Encode [("uuid", [u.String])] }) none = .ok r →
      t.Decode r (unmarshalStruct (Res.fields (tagsFields m) "Errors")) ⟨⟨.nil⟩, .nil⟩
        = .ok res →
      r.StatusCode ≠ 200 →
      (GetOrganisationTags m t s u).result = .mk [] ∧ (GetOrganisationTags m t s u).err ≠ none) := by
  refine ⟨?_, ?_, ?_, ?_, ?_, ?_⟩
  · intro r h1 h2 h3
    simp only [GetTags, h1, Transport.Decode, h3, unmarshal_tags_empty]
    simp [h2, Slice.len, Slice.toList, Slice.isNil]
  · intro r res h1 h2 h3
    simp only [GetTags, h1, h2]
    simp [h3]
  · intro r h1 h2 h3
    simp only [GetUserTags, h1, Transport.Decode, h3, unmarshal_tags_empty]
    simp [h2, Slice.len, Slice.toList, Slice.isNil]
  · intro r res h1 h2 h3
    simp only [GetUserTags, h1, h2]
    simp [h3]
  · intro r h1 h2 h3
    simp only [GetOrganisationTags, h1, Transport.Decode, h3, unmarshal_tags_empty]
    simp [h2, Slice.len, Slice.toList, Slice.isNil]
  · intro r res h1 h2 h3
    simp only [GetOrganisationTags, h1, h2]
    simp [h3]

/-- Witness of C4: GetOrganisationTags against status 200 and `data.tags = []`. -/
theorem list_read_empty_witness :
    (GetOrganisationTags labelModel
        (reply 200 (envelope "tags found" (.obj [("tags", .arr [])]) (errorsDoc [])))
        client sampleUUID).result = .mk [] ∧
    (GetOrganisationTags labelModel
        (reply 200 (envelope "tags found" (.obj [("tags", .arr [])]) (errorsDoc [])))
        client sampleUUID).result.isNil = false ∧
    (GetOrganisationTags labelModel
        (reply 200 (envelope "tags found" (.obj [("tags", .arr [])]) (errorsDoc [])))
        client sampleUUID).result.len = 0 ∧
    (GetOrganisationTags labelModel
        (reply 200 (envelope "tags found" (.obj [("tags", .arr [])]) (errorsDoc [])))
        client sampleUUID).err = none :=
  (list_read_empty labelModel
      (reply 200 (envelope "tags found" (.obj [("tags", .arr [])]) (errorsDoc [])))
      client sampleUUID "tags found" []).2.2.2.2.1
    ⟨200, "body"⟩ rfl rfl rfl

/-- C5. DeleteItem and DeleteTag return a nil error exactly when the transport call
succeeds, the envelope decodes and the status is 200; on a decoded response of another
status the error carries that status and the decoded errors map; two response documents
that differ only in their `data` members give the same result; and on an envelope with
the error map `M` under `errors` and anything under `data`, status 200 gives a nil error
and every other status the error with that status and the map `M`. -/
theorem delete_result (t : Transport) (s : Service) (u : UUID) :
    ((DeleteItem t s u).err = none ↔
      ∃ r res,
        t.NewRequest "DELETE" (URL.String
          { s.URL with
            Path := "/item/-"
            RawQuery := Values.Encode [("uuid", [u.String])] }) none = .ok r ∧
        t.Decode r (unmarshalStruct deleteFields) ⟨.nil⟩ = .ok res ∧ r.StatusCode = 200) ∧
    (∀ r res,
        t.NewRequest "DELETE" (URL.String
          { s.URL with
            Path := "/item/-"
            RawQuery := Values.Encode [("uuid", [u.String])] }) none = .ok r →
        t.Decode r (unmarshalStruct deleteFields) ⟨.nil⟩ = .ok res → r.StatusCode ≠ 200 →
        (DeleteItem t s u).err = some ⟨r.StatusCode, res.Errors⟩) ∧
    (∀ parse2 r kvs kvs2,
        t.NewRequest "DELETE" (URL.String
          { s.URL with
            Path := "/item/-"
            RawQuery := Values.Encode [("uuid", [u.String])] }) none = .ok r →
        t.parse r.Body = .ok (.obj kvs) → parse2 r.Body = .ok (.obj kvs2) →
        kvs.filter (fun kv => kv.1 != "data") = kvs2.filter (fun kv => kv.1 != "data") →
        (DeleteItem { t with parse := parse2 } s u).err = (DeleteItem t s u).err) ∧
    (∀ r msg d M,
        t.NewRequest "DELETE" (URL.String
          { s.URL with
            Path := "/item/-"
            RawQuery := Values.Encode [("uuid", [u.String])] }) none = .ok r →
        t.parse r.Body = .ok (envelope msg d (errorsDoc M)) →
        (r.StatusCode = 200 → (DeleteItem t s u).err = none) ∧
        (r.StatusCode ≠ 200 → (DeleteItem t s u).err = some ⟨r.StatusCode, .mk (mapOf M)⟩)) ∧
    ((DeleteTag t s u).err = none ↔
      ∃ r res,
        t.NewRequest "DELETE" (URL.String
          { s.URL with
            Path := "/tag/-"
            RawQuery := Values.Encode [("uuid", [u.String])] }) none = .ok r ∧
        t.Decode r (unmarshalStruct deleteFields) ⟨.nil⟩ = .ok res ∧ r.StatusCode = 200) ∧
    (∀ r res,
        t.NewRequest "DELETE" (URL.String
          { s.URL with
            Path := "/tag/-"
            RawQuery := Values.Encode [("uuid", [u.String])] }) none = .ok r →
        t.Decode r (unmarshalStruct deleteFields) ⟨.nil⟩ = .ok res → r.StatusCode ≠ 200 →
        (DeleteTag t s u).err = some ⟨r.StatusCode, res.Errors⟩) ∧
    (∀ parse2 r kvs kvs2,
        t.NewRequest "DELETE" (URL.String
          { s.URL with
            Path := "/tag/-"
            RawQuery := Values.Encode [("uuid", [u.String])] }) none = .ok r →
        t.parse r.Body = .ok (.obj kvs) → parse2 r.Body = .ok (.obj kvs2) →
        kvs.filter (fun kv => kv.1 != "data") = kvs2.filter (fun kv => kv.1 != "data") →
        (DeleteTag { t with parse := parse2 } s u).err = (DeleteTag t s u).err) ∧
    (∀ r msg d M,
        t.NewRequest "DELETE" (URL.String
          { s.URL with
            Path := "/tag/-"
            RawQuery := Values.Encode [("uuid", [u.String])] }) none = .ok r →
        t.parse r.Body = .ok (envelope msg d (errorsDoc M)) →
        (r.StatusCode = 200 → (DeleteTag t s u).err = none) ∧
        (r.StatusCode ≠ 200 → (DeleteTag t s u).err = some ⟨r.StatusCode, .mk (mapOf M)⟩)) := by
  refine ⟨?_, ?_, ?_, ?_, ?_, ?_, ?_, ?_⟩
  · simp only [DeleteItem]
    cases h1 : t.NewRequest "DELETE" (URL.String
          { s.URL with
            Path := "/item/-"
            RawQuery := Values.Encode [("uuid", [u.String])] }) none with
    | error e => simp
    | ok r =>
      cases h2 : t.Decode r (unmarshalStruct deleteFields) ⟨.nil⟩ with
      | error e => simp [h2]
      | ok res => by_cases h3 : r.StatusCode = 200 <;> simp [h2, h3]
  · intro r res h1 h2 h3
    simp only [DeleteItem, h1, h2]
    simp [h3]
  · intro parse2 r kvs kvs2 h1 h2 h3 h4
    simp only [DeleteItem, h1, Transport.Decode, h2, h3, unmarshalStruct]
    rw [← objectInto_delete_data kvs, ← objectInto_delete_data kvs2, h4]
  · intro r msg d M h1 h2
    simp only [DeleteItem, h1, Transport.Decode, h2, unmarshal_delete_envelope]
    constructor <;> intro h3 <;> simp [h3]
  · simp only [DeleteTag]
    cases h1 : t.NewRequest "DELETE" (URL.String
          { s.URL with
            Path := "/tag/-"
            RawQuery := Values.Encode [("uuid", [u.String])] }) none with
    | error e => simp
    | ok r =>
      cases h2 : t.Decode r (unmarshalStruct deleteFields) ⟨.nil⟩ with
      | error e => simp [h2]
      | ok res => by_cases h3 : r.StatusCode = 200 <;> simp [h2, h3]
  · intro r res h1 h2 h3
    simp only [DeleteTag, h1, h2]
    simp [h3]
  · intro parse2 r kvs kvs2 h1 h2 h3 h4
    simp only [DeleteTag, h1, Transport.Decode, h2, h3, unmarshalStruct]
    rw [← objectInto_delete_data kvs, ← objectInto_delete_data kvs2, h4]
  · intro r msg d M h1 h2
    simp only [DeleteTag, h1, Transport.Decode, h2, unmarshal_delete_envelope]
    constructor <;> intro h3 <;> simp [h3]

/-- Witness of C5: DeleteItem against status 200 with empty `data` and `errors`, the
test case "delete bank account", returns a nil error; against status 403 with a
populated `data` and the error map of the test case "permission required" it returns the
error with status 403 and that map. -/
theorem delete_result_witness :
    (DeleteItem (reply 200 (envelope "deleted" (.obj []) (errorsDoc []))) client
      sampleUUID).err = none ∧
    (DeleteItem (reply 403 (envelope "Forbidden" (.obj [("item", .obj [("name", .str "rent")])])
        (errorsDoc permission))) client sampleUUID).err
      = some ⟨403, .mk [("permission", .mk ["Please ensure you have permission"])]⟩ :=
  ⟨(delete_result (reply 200 (envelope "deleted" (.obj []) (errorsDoc []))) client
      sampleUUID).1.mpr ⟨⟨200, "body"⟩, ⟨.mk []⟩, rfl, rfl, rfl⟩,
   ((delete_result (reply 403 (envelope "Forbidden" (.obj [("item", .obj [("name", .str "rent")])])
        (errorsDoc permission))) client sampleUUID).2.2.2.1 ⟨403, "body"⟩ "Forbidden"
      (.obj [("item", .obj [("name", .str "rent")])]) permission rfl rfl).2 (by decide)⟩

/-- C6. For every operation: when encoding the payload fails with `e`, the operation
returns its empty result (`Item{}`, `Tag{}`) and exactly `e`, and makes no collaborator
call at all; when the transport call fails with `e`, it returns its empty result
(`Item{}`, `Tag{}`, `Tags{}`; the delete operations return only the error) and exactly
`e`, and the request is its only collaborator call: nothing is decoded or classified. -/
theorem failure_propagation {Item Tag : Type} (mi : Model Item) (mt : Model Tag)
    (t : Transport) (s : Service) (i : Item) (g : Tag) (u : UUID) :
    (∀ e, mi.MarshalReader i = .error e →
      (CreateItem mi t s i).result = mi.zero ∧ (CreateItem mi t s i).err = some e ∧
      (CreateItem mi t s i).calls = []) ∧
    (∀ p e, mi.MarshalReader i = .ok p →
      t.NewRequest "POST" (URL.String { s.URL with Path := "/item" }) (some p) = .error e →
      (CreateItem mi t s i).result = mi.zero ∧ (CreateItem mi t s i).err = some e ∧
      (CreateItem mi t s i).calls = [.NewRequest "POST" (URL.String { s.URL with Path := "/item" }) (some p)]) ∧
    (∀ e, mi.MarshalReader i = .error e →
      (UpdateItem mi t s i).result = mi.zero ∧ (UpdateItem mi t s i).err = some e ∧
      (UpdateItem mi t s i).calls = []) ∧
    (∀ p e, mi.MarshalReader i = .ok p →
      t.NewRequest "PUT" (URL.String { s.URL with Path := "/item/-" }) (some p) = .error e →
      (UpdateItem mi t s i).result = mi.zero ∧ (UpdateItem mi t s i).err = some e ∧
      (UpdateItem mi t s i).calls = [.NewRequest "PUT" (URL.String { s.URL with Path := "/item/-" }) (some p)]) ∧
    (∀ e, t.NewRequest "DELETE" (URL.String
          { s.URL with
            Path := "/item/-"
            RawQuery := Values.Encode [("uuid", [u.String])] }) none = .error e →
      (DeleteItem t s u).err = some e ∧
      (DeleteItem t s u).calls = [.NewRequest "DELETE" (URL.String
          { s.URL with
            Path := "/item/-"
            RawQuery := Values.Encode [("uuid", [u.String])] }) none]) ∧
    (∀ e, t.NewRequest "GET" (URL.String { s.URL with Path := "/tag" }) none = .error e →
      (GetTags mt t s).result = .mk [] ∧ (GetTags mt t s).err = some e ∧
      (GetTags mt t s).calls = [.NewRequest "GET" (URL.String { s.URL with Path := "/tag" }) none]) ∧
    (∀ e, t.NewRequest "GET" (URL.String
          { s.URL with
            Path := "/tag/user/-"
            RawQuery := Values.Encode [("uuid", [u.String])] }) none = .error e →
      (GetUserTags mt t s u).result = .mk [] ∧ (GetUserTags mt t s u).err = some e ∧
      (GetUserTags mt t s u).calls = [.NewRequest "GET" (URL.String
          { s.URL with
            Path := "/tag/user/-"
            RawQuery := Values.Encode [("uuid", [u.String])] }) none]) ∧
    (∀ e, t.NewRequest "GET" (URL.String
          { s.URL with
            Path := "/tag/organisation/-"
            RawQuery := Values.Encode [("uuid", [u.String])] }) none = .error e →
      (GetOrganisationTags mt t s u).result = .mk [] ∧ (GetOrganisationTags mt t s u).err = some e ∧
      (GetOrganisationTags mt t s u).calls = [.NewRequest "GET" (URL.String
          { s.URL with
            Path := "/tag/organisation/-"
            RawQuery := Values.Encode [("uuid", [u.String])] }) none]) ∧
    (∀ e, mt.MarshalReader g = .error e →
      (CreateTag mt t s g).result = mt.zero ∧ (CreateTag mt t s g).err = some e ∧
      (CreateTag mt t s g).calls = []) ∧
    (∀ p e, mt.MarshalReader g = .ok p →
      t.NewRequest "POST" (URL.String { s.URL with Path := "/tag" }) (some p) = .error e →
      (CreateTag mt t s g).result = mt.zero ∧ (CreateTag mt t s g).err = some e ∧
      (CreateTag mt t s g).calls = [.NewRequest "POST" (URL.String { s.URL with Path := "/tag" }) (some p)]) ∧
    (∀ e, mt.MarshalReader g = .error e →
      (UpdateTag mt t s g).result = mt.zero ∧ (UpdateTag mt t s g).err = some e ∧
      (UpdateTag mt t s g).calls = []) ∧
    (∀ p e, mt.MarshalReader g = .ok p →
      t.NewRequest "PUT" (URL.String { s.URL with Path := "/tag/-" }) (some p) = .error e →
      (UpdateTag mt t s g).result = mt.zero ∧ (UpdateTag mt t s g).err = some e ∧
      (UpdateTag mt t s g).calls = [.NewRequest "PUT" (URL.String { s.URL with Path := "/tag/-" }) (some p)]) ∧
    (∀ e, t.NewRequest "DELETE" (URL.String
          { s.URL with
            Path := "/tag/-"
            RawQuery := Values.Encode [("uuid", [u.String])] }) none = .error e →
      (DeleteTag t s u).err = some e ∧
      (DeleteTag t s u).calls = [.NewRequest "DELETE" (URL.String
          { s.URL with
            Path := "/tag/-"
            RawQuery := Values.Encode [("uuid", [u.String])] }) none]) := by
  refine ⟨?_, ?_, ?_, ?_, ?_, ?_, ?_, ?_, ?_, ?_, ?_, ?_, ?_⟩
  · intro e h1
    simp only [CreateItem, h1]
    simp
  · intro p e h1 h2
    simp only [CreateItem, h1, h2]
    simp
  · intro e h1
    simp only [UpdateItem, h1]
    simp
  · intro p e h1 h2
    simp only [UpdateItem, h1, h2]
    simp
  · intro e h1
    simp only [DeleteItem, h1]
    simp
  · intro e h1
    simp only [GetTags, h1]
    simp
  · intro e h1
    simp only [GetUserTags, h1]
    simp
  · intro e h1
    simp only [GetOrganisationTags, h1]
    simp
  · intro e h1
    simp only [CreateTag, h1]
    simp
  · intro p e h1 h2
    simp only [CreateTag, h1, h2]
    simp
  · intro e h1
    simp only [UpdateTag, h1]
    simp
  · intro p e h1 h2
    simp only [UpdateTag, h1, h2]
    simp
  · intro e h1
    simp only [DeleteTag, h1]
    simp

/-- Witness of C6: CreateItem with an encoder that fails returns the zero item and the
encoder's error, and issues no request. -/
theorem failure_propagation_witness :
    (CreateItem (failingModel ⟨500, .mk [("marshal", .mk ["unsupported"])]⟩)
        (reply 201 (envelope "created" (.obj []) (errorsDoc []))) client ⟨"rent"⟩).result
      = ⟨""⟩ ∧
    (CreateItem (failingModel ⟨500, .mk [("marshal", .mk ["unsupported"])]⟩)
        (reply 201 (envelope "created" (.obj []) (errorsDoc []))) client ⟨"rent"⟩).err
      = some ⟨500, .mk [("marshal", .mk ["unsupported"])]⟩ ∧
    (CreateItem (failingModel ⟨500, .mk [("marshal", .mk ["unsupported"])]⟩)
        (reply 201 (envelope "created" (.obj []) (errorsDoc []))) client ⟨"rent"⟩).calls
      = [] :=
  (failure_propagation (failingModel ⟨500, .mk [("marshal", .mk ["unsupported"])]⟩)
      labelModel (reply 201 (envelope "created" (.obj []) (errorsDoc []))) client
      ⟨"rent"⟩ ⟨"food"⟩ sampleUUID).1
    ⟨500, .mk [("marshal", .mk ["unsupported"])]⟩ rfl

/-- C7. For every operation and every response `r`, whatever its status code: when
decoding the envelope fails with `e`, the operation returns its empty result and exactly
`e`; it neither reports success nor builds an error from the status. -/
theorem decode_failure {Item Tag : Type} (mi : Model Item) (mt : Model Tag)
    (t : Transport) (s : Service) (i : Item) (g : Tag) (u : UUID) :
    (∀ p r e, mi.MarshalReader i = .ok p →
      t.NewRequest "POST" (URL.String { s.URL with Path := "/item" }) (some p) = .ok r →
      t.Decode r (unmarshalStruct (Res.fields (Data.fields mi "item") "errors"))
          ⟨⟨mi.zero⟩, .nil⟩ = .error e →
      (CreateItem mi t s i).result = mi.zero ∧ (CreateItem mi t s i).err = some e) ∧
    (∀ p r e, mi.MarshalReader i = .ok p →
      t.NewRequest "PUT" (URL.String { s.URL with Path := "/item/-" }) (some p) = .ok r →
      t.Decode r (unmarshalStruct (Res.fields (Data.fields mi "item") "errors"))
          ⟨⟨mi.zero⟩, .nil⟩ = .error e →
      (UpdateItem mi t s i).result = mi.zero ∧ (UpdateItem mi t s i).err = some e) ∧
    (∀ r e, t.NewRequest "DELETE" (URL.String
          { s.URL with
            Path := "/item/-"
            RawQuery := Values.Encode [("uuid", [u.String])] }) none = .ok r →
      t.Decode r (unmarshalStruct deleteFields) ⟨.nil⟩ = .error e →
      (DeleteItem t s u).err = some e) ∧
    (∀ r e, t.NewRequest "GET" (URL.String { s.URL with Path := "/tag" }) none = .ok r →
      t.Decode r (unmarshalStruct (Res.fields (tagsFields mt) "Errors"))
          ⟨⟨.nil⟩, .nil⟩ = .error e →
      (GetTags mt t s).result = .mk [] ∧ (GetTags mt t s).err = some e) ∧
    (∀ r e, t.NewRequest "GET" (URL.String
          { s.URL with
            Path := "/tag/user/-"
            RawQuery := Values.Encode [("uuid", [u.String])] }) none = .ok r →
      t.Decode r (unmarshalStruct (Res.fields (tagsFields mt) "Errors"))
          ⟨⟨.nil⟩, .nil⟩ = .error e →
      (GetUserTags mt t s u).result = .mk [] ∧ (GetUserTags mt t s u).err = some e) ∧
    (∀ r e, t.NewRequest "GET" (URL.String
          { s.URL with
            Path := "/tag/organisation/-"
            RawQuery := Values.Encode [("uuid", [u.String])] }) none = .ok r →
      t.Decode r (unmarshalStruct (Res.fields (tagsFields mt) "Errors"))
          ⟨⟨.nil⟩, .nil⟩ = .error e →
      (GetOrganisationTags mt t s u).result = .mk [] ∧ (GetOrganisationTags mt t s u).err = some e) ∧
    (∀ p r e, mt.MarshalReader g = .ok p →
      t.NewRequest "POST" (URL.String { s.URL with Path := "/tag" }) (some p) = .ok r →
      t.Decode r (unmarshalStruct (Res.fields (Data.fields mt "tag") "errors"))
          ⟨⟨mt.zero⟩, .nil⟩ = .error e →
      (CreateTag mt t s g).result = mt.zero ∧ (CreateTag mt t s g).err = some e) ∧
    (∀ p r e, mt.MarshalReader g = .ok p →
      t.NewRequest "PUT" (URL.String { s.URL with Path := "/tag/-" }) (some p) = .ok r →
      t.Decode r (unmarshalStruct (Res.fields (Data.fields mt "tag") "errors"))
          ⟨⟨mt.zero⟩, .nil⟩ = .error e →
      (UpdateTag mt t s g).result = mt.zero ∧ (UpdateTag mt t s g).err = some e) ∧
    (∀ r e, t.NewRequest "DELETE" (URL.String
          { s.URL with
            Path := "/tag/-"
            RawQuery := Values.Encode [("uuid", [u.String])] }) none = .ok r →
      t.Decode r (unmarshalStruct deleteFields) ⟨.nil⟩ = .error e →
      (DeleteTag t s u).err = some e) := by
  refine ⟨?_, ?_, ?_, ?_, ?_, ?_, ?_, ?_, ?_⟩
  · intro p r e h1 h2 h3
    simp only [CreateItem, h1, h2, h3]
    simp
  · intro p r e h1 h2 h3
    simp only [UpdateItem, h1, h2, h3]
    simp
  · intro r e h1 h2
    simp only [DeleteItem, h1, h2]
  · intro r e h1 h2
    simp only [GetTags, h1, h2]
    simp
  · intro r e h1 h2
    simp only [GetUserTags, h1, h2]
    simp
  · intro r e h1 h2
    simp only [GetOrganisationTags, h1, h2]
    simp
  · intro p r e h1 h2 h3
    simp only [CreateTag, h1, h2, h3]
    simp
  · intro p r e h1 h2 h3
    simp only [UpdateTag, h1, h2, h3]
    simp
  · intro r e h1 h2
    simp only [DeleteTag, h1, h2]

/-- Witness of C7: CreateItem against the expected status 201 and a body that cannot be
parsed returns the zero item and the decoding error. -/
theorem decode_failure_witness :
    (CreateItem labelModel (garbled 201 ⟨500, .mk [("unmarshal", .mk ["bad body"])]⟩) client
        ⟨"rent"⟩).result = ⟨""⟩ ∧
    (CreateItem labelModel (garbled 201 ⟨500, .mk [("unmarshal", .mk ["bad body"])]⟩) client
        ⟨"rent"⟩).err = some ⟨500, .mk [("unmarshal", .mk ["bad body"])]⟩ :=
  (decode_failure labelModel labelModel
      (garbled 201 ⟨500, .mk [("unmarshal", .mk ["bad body"])]⟩) client ⟨"rent"⟩ ⟨"food"⟩
      sampleUUID).1
    "name=rent" ⟨201, "body"⟩ ⟨500, .mk [("unmarshal", .mk ["bad body"])]⟩ rfl rfl rfl

/-- C8, as stated, fails. On a client whose base URL has no scheme the request of
DeleteItem goes to `//bank.dottics.com/...`, which is not `<scheme>://<host>...` for the
empty scheme; and on a client whose host has bytes that net/url escapes, the host is not
written as it is. -/
theorem request_url_not_literal :
    (DeleteItem (reply 200 (envelope "deleted" (.obj []) (errorsDoc []))) schemeless sampleUUID).calls.head?
      = some (.NewRequest "DELETE"
          "//bank.dottics.com/item/-?uuid=e6b7f986-307c-4147-a34e-f924790799bb" none) ∧
    (DeleteItem (reply 200 (envelope "deleted" (.obj []) (errorsDoc []))) schemeless sampleUUID).calls.head?
      ≠ some (.NewRequest "DELETE"
          (schemeless.URL.Scheme ++ "://" ++ schemeless.URL.Host ++ "/item/-" ++ "?uuid="
            ++ sampleUUID.String) none) ∧
    (DeleteItem (reply 200 (envelope "deleted" (.obj []) (errorsDoc []))) umlautHost sampleUUID).calls.head?
      = some (.NewRequest "DELETE"
          "https://b%C3%A4nk.dottics.com/item/-?uuid=e6b7f986-307c-4147-a34e-f924790799bb"
          none) ∧
    (DeleteItem (reply 200 (envelope "deleted" (.obj []) (errorsDoc []))) umlautHost sampleUUID).calls.head?
      ≠ some (.NewRequest "DELETE"
          (umlautHost.URL.Scheme ++ "://" ++ umlautHost.URL.Host ++ "/item/-" ++ "?uuid="
            ++ sampleUUID.String) none) := by
  refine ⟨?_, ?_, ?_, ?_⟩ <;> decide

/-- C8, amended. For every identifier `u`, every transport and every prior client state,
DeleteItem, DeleteTag, GetUserTags and GetOrganisationTags first issue a request with the
method DELETE, DELETE, GET, GET and no body to the rendering of the URL made of the
scheme and host of the client, the placeholder path of item, tag, tag/user and
tag/organisation, and the query string `uuid=<text of u>`; when the base URL has a scheme
that URL is `<scheme>://<host><path>?uuid=<text of u>` with the host as net/url escapes
it, which is the host itself when it has no byte that net/url escapes; the query string
they leave in the client is that single parameter, and the text of `u` has 36
characters. -/
theorem identifier_in_query {Tag : Type} (m : Model Tag) (t : Transport) (s : Service)
    (u : UUID) :
    (DeleteItem t s u).calls.head? = some (.NewRequest "DELETE"
      (URL.String ⟨s.URL.Scheme, s.URL.Host, "/item/-", "uuid=" ++ u.String⟩) none) ∧
    (s.URL.Scheme ≠ "" →
      (DeleteItem t s u).calls.head? = some (.NewRequest "DELETE"
        (s.URL.Scheme ++ "://" ++ escape shouldEscapeHost s.URL.Host ++ "/item/-" ++ "?uuid="
          ++ u.String) none)) ∧
    (DeleteItem t s u).s.URL.RawQuery = "uuid=" ++ u.String ∧
    (GetUserTags m t s u).calls.head? = some (.NewRequest "GET"
      (URL.String ⟨s.URL.Scheme, s.URL.Host, "/tag/user/-", "uuid=" ++ u.String⟩) none) ∧
    (s.URL.Scheme ≠ "" →
      (GetUserTags m t s u).calls.head? = some (.NewRequest "GET"
        (s.URL.Scheme ++ "://" ++ escape shouldEscapeHost s.URL.Host ++ "/tag/user/-" ++ "?uuid="
          ++ u.String) none)) ∧
    (GetUserTags m t s u).s.URL.RawQuery = "uuid=" ++ u.String ∧
    (GetOrganisationTags m t s u).calls.head? = some (.NewRequest "GET"
      (URL.String ⟨s.URL.Scheme, s.URL.Host, "/tag/organisation/-", "uuid=" ++ u.String⟩) none) ∧
    (s.URL.Scheme ≠ "" →
      (GetOrganisationTags m t s u).calls.head? = some (.NewRequest "GET"
        (s.URL.Scheme ++ "://" ++ escape shouldEscapeHost s.URL.Host ++ "/tag/organisation/-" ++ "?uuid="
          ++ u.String) none)) ∧
    (GetOrganisationTags m t s u).s.URL.RawQuery = "uuid=" ++ u.String ∧
    (DeleteTag t s u).calls.head? = some (.NewRequest "DELETE"
      (URL.String ⟨s.URL.Scheme, s.URL.Host, "/tag/-", "uuid=" ++ u.String⟩) none) ∧
    (s.URL.Scheme ≠ "" →
      (DeleteTag t s u).calls.head? = some (.NewRequest "DELETE"
        (s.URL.Scheme ++ "://" ++ escape shouldEscapeHost s.URL.Host ++ "/tag/-" ++ "?uuid="
          ++ u.String) none)) ∧
    (DeleteTag t s u).s.URL.RawQuery = "uuid=" ++ u.String ∧
    (plainHost s.URL.Host = true → escape shouldEscapeHost s.URL.Host = s.URL.Host) ∧
    u.String.length = 36 := by
  refine ⟨?_, ?_, ?_, ?_, ?_, ?_, ?_, ?_, ?_, ?_, ?_, ?_, escape_plainHost s.URL.Host, length_uuid u⟩
  · rw [← encode_uuid u]
    simp only [DeleteItem]
    repeat' split
    all_goals rfl
  · intro hs
    rw [← request_url s.URL "/item/-" u hs rfl (by decide)]
    simp only [DeleteItem]
    repeat' split
    all_goals rfl
  · rw [← encode_uuid u]
    simp only [DeleteItem]
    repeat' split
    all_goals rfl
  · rw [← encode_uuid u]
    simp only [GetUserTags]
    repeat' split
    all_goals rfl
  · intro hs
    rw [← request_url s.URL "/tag/user/-" u hs rfl (by decide)]
    simp only [GetUserTags]
    repeat' split
    all_goals rfl
  · rw [← encode_uuid u]
    simp only [GetUserTags]
    repeat' split
    all_goals rfl
  · rw [← encode_uuid u]
    simp only [GetOrganisationTags]
    repeat' split
    all_goals rfl
  · intro hs
    rw [← request_url s.URL "/tag/organisation/-" u hs rfl (by decide)]
    simp only [GetOrganisationTags]
    repeat' split
    all_goals rfl
  · rw [← encode_uuid u]
    simp only [GetOrganisationTags]
    repeat' split
    all_goals rfl
  · rw [← encode_uuid u]
    simp only [DeleteTag]
    repeat' split
    all_goals rfl
  · intro hs
    rw [← request_url s.URL "/tag/-" u hs rfl (by decide)]
    simp only [DeleteTag]
    repeat' split
    all_goals rfl
  · rw [← encode_uuid u]
    simp only [DeleteTag]
    repeat' split
    all_goals rfl

/-- Witness of C8, amended: DeleteItem on the client of `TestNewService`. -/
theorem identifier_in_query_witness :
    (DeleteItem (reply 200 (envelope "deleted" (.obj []) (errorsDoc []))) client
      sampleUUID).calls.head? = some (.NewRequest "DELETE"
        "https://bank.dottics.com/item/-?uuid=e6b7f986-307c-4147-a34e-f924790799bb" none) :=
  (identifier_in_query labelModel (reply 200 (envelope "deleted" (.obj []) (errorsDoc [])))
    client sampleUUID).2.1 (by decide)

/-- C9, evaluated on a client that has made an identifier-in-query call: after
`DeleteItem(u)` the request of CreateItem goes to `/item?uuid=<text of u>`, after
`GetUserTags(u)` the request of GetTags goes to `/tag?uuid=<text of u>`; the query string
that the earlier call left in the client is sent along, while on the fresh client the
two URLs have no query string. -/
theorem stale_query_after_identifier_call :
    (CreateItem labelModel (reply 201 (envelope "created" (.obj []) (errorsDoc [])))
        (DeleteItem (reply 200 (envelope "deleted" (.obj []) (errorsDoc []))) client
          sampleUUID).s ⟨"rent"⟩).calls.head?
      = some (.NewRequest "POST"
          "https://bank.dottics.com/item?uuid=e6b7f986-307c-4147-a34e-f924790799bb"
          (some "name=rent")) ∧
    (GetTags labelModel (reply 200 (envelope "found" (.obj [("tags", .arr [])]) (errorsDoc [])))
        (GetUserTags labelModel
          (reply 200 (envelope "found" (.obj [("tags", .arr [])]) (errorsDoc []))) client
          sampleUUID).s).calls.head?
      = some (.NewRequest "GET"
          "https://bank.dottics.com/tag?uuid=e6b7f986-307c-4147-a34e-f924790799bb" none) ∧
    (CreateItem labelModel (reply 201 (envelope "created" (.obj []) (errorsDoc [])))
        client ⟨"rent"⟩).calls.head?
      = some (.NewRequest "POST" "https://bank.dottics.com/item" (some "name=rent")) ∧
    (GetTags labelModel (reply 200 (envelope "found" (.obj [("tags", .arr [])]) (errorsDoc [])))
        client).calls.head?
      = some (.NewRequest "GET" "https://bank.dottics.com/tag" none) := by
  refine ⟨?_, ?_, ?_, ?_⟩ <;> decide

/-- C10, as stated, fails: CreateItem against status 200, which lies in 200..299, and an
envelope that carries the item returns the zero item and an error with status 200. -/
theorem create_rejects_status_200 :
    (200 : Int) ≤ 200 ∧ (200 : Int) ≤ 299 ∧
    (CreateItem labelModel
        (reply 200 (envelope "created" (.obj [("item", .obj [("name", .str "rent")])])
          (errorsDoc []))) client ⟨"rent"⟩).result = ⟨""⟩ ∧
    (CreateItem labelModel
        (reply 200 (envelope "created" (.obj [("item", .obj [("name", .str "rent")])])
          (errorsDoc []))) client ⟨"rent"⟩).err = some ⟨200, .mk []⟩ := by
  refine ⟨?_, ?_, ?_, ?_⟩ <;> decide

/-- C10, amended. For every operation, when the transport call and the decoding succeed:
a status equal to the expected success code of the operation (201 for CreateItem and
CreateTag, 200 for the others) yields the decoded result and a nil error; every other
status, the other codes of 200..299 included, yields the empty result and an error that
carries that status and the decoded errors map. -/
theorem status_classification {Item Tag : Type} (mi : Model Item) (mt : Model Tag)
    (t : Transport) (s : Service) (i : Item) (g : Tag) (u : UUID) :
    (∀ p r res, mi.MarshalReader i = .ok p →
      t.NewRequest "POST" (URL.String { s.URL with Path := "/item" }) (some p) = .ok r →
      t.Decode r (unmarshalStruct (Res.fields (Data.fields mi "item") "errors"))
          ⟨⟨mi.zero⟩, .nil⟩ = .ok res →
      (r.StatusCode = 201 → (CreateItem mi t s i).result = res.Data.val ∧ (CreateItem mi t s i).err = none) ∧
      (r.StatusCode ≠ 201 → (CreateItem mi t s i).result = mi.zero ∧
        (CreateItem mi t s i).err = some ⟨r.StatusCode, res.Errors⟩)) ∧
    (∀ p r res, mi.MarshalReader i = .ok p →
      t.NewRequest "PUT" (URL.String { s.URL with Path := "/item/-" }) (some p) = .ok r →
      t.Decode r (unmarshalStruct (Res.fields (Data.fields mi "item") "errors"))
          ⟨⟨mi.zero⟩, .nil⟩ = .ok res →
      (r.StatusCode = 200 → (UpdateItem mi t s i).result = res.Data.val ∧ (UpdateItem mi t s i).err = none) ∧
      (r.StatusCode ≠ 200 → (UpdateItem mi t s i).result = mi.zero ∧
        (UpdateItem mi t s i).err = some ⟨r.StatusCode, res.Errors⟩)) ∧
    (∀ r res, t.NewRequest "DELETE" (URL.String
          { s.URL with
            Path := "/item/-"
            RawQuery := Values.Encode [("uuid", [u.String])] }) none = .ok r →
      t.Decode r (unmarshalStruct deleteFields) ⟨.nil⟩ = .ok res →
      (r.StatusCode = 200 → (DeleteItem t s u).err = none) ∧
      (r.StatusCode ≠ 200 → (DeleteItem t s u).err = some ⟨r.StatusCode, res.Errors⟩)) ∧
    (∀ r res, t.NewRequest "GET" (URL.String { s.URL with Path := "/tag" }) none = .ok r →
      t.Decode r (unmarshalStruct (Res.fields (tagsFields mt) "Errors"))
          ⟨⟨.nil⟩, .nil⟩ = .ok res →
      (r.StatusCode = 200 → (GetTags mt t s).result = res.Data.val ∧ (GetTags mt t s).err = none) ∧
      (r.StatusCode ≠ 200 → (GetTags mt t s).result = .mk [] ∧
        (GetTags mt t s).err = some ⟨r.StatusCode, res.Errors⟩)) ∧
    (∀ r res, t.NewRequest "GET" (URL.String
          { s.URL with
            Path := "/tag/user/-"
            RawQuery := Values.Encode [("uuid", [u.String])] }) none = .ok r →
      t.Decode r (unmarshalStruct (Res.fields (tagsFields mt) "Errors"))
          ⟨⟨.nil⟩, .nil⟩ = .ok res →
      (r.StatusCode = 200 → (GetUserTags mt t s u).result = res.Data.val ∧ (GetUserTags mt t s u).err = none) ∧
      (r.StatusCode ≠ 200 → (GetUserTags mt t s u).result = .mk [] ∧
        (GetUserTags mt t s u).err = some ⟨r.StatusCode, res.Errors⟩)) ∧
    (∀ r res, t.NewRequest "GET" (URL.String
          { s.URL with
            Path := "/tag/organisation/-"
            RawQuery := Values.Encode [("uuid", [u.String])] }) none = .ok r →
      t.Decode r (unmarshalStruct (Res.fields (tagsFields mt) "Errors"))
          ⟨⟨.nil⟩, .nil⟩ = .ok res →
      (r.StatusCode = 200 → (GetOrganisationTags mt t s u).result = res.Data.val ∧ (GetOrganisationTags mt t s u).err = none) ∧
      (r.StatusCode ≠ 200 → (GetOrganisationTags mt t s u).result = .mk [] ∧
        (GetOrganisationTags mt t s u).err = some ⟨r.StatusCode, res.Errors⟩)) ∧
    (∀ p r res, mt.MarshalReader g = .ok p →
      t.NewRequest "POST" (URL.String { s.URL with Path := "/tag" }) (some p) = .ok r →
      t.Decode r (unmarshalStruct (Res.fields (Data.fields mt "tag") "errors"))
          ⟨⟨mt.zero⟩, .nil⟩ = .ok res →
      (r.StatusCode = 201 → (CreateTag mt t s g).result = res.Data.val ∧ (CreateTag mt t s g).err = none) ∧
      (r.StatusCode ≠ 201 → (CreateTag mt t s g).result = mt.zero ∧
        (CreateTag mt t s g).err = some ⟨r.StatusCode, res.Errors⟩)) ∧
    (∀ p r res, mt.MarshalReader g = .ok p →
      t.NewRequest "PUT" (URL.String { s.URL with Path := "/tag/-" }) (some p) = .ok r →
      t.Decode r (unmarshalStruct (Res.fields (Data.fields mt "tag") "errors"))
          ⟨⟨mt.zero⟩, .nil⟩ = .ok res →
      (r.StatusCode = 200 → (UpdateTag mt t s g).result = res.Data.val ∧ (UpdateTag mt t s g).err = none) ∧
      (r.StatusCode ≠ 200 → (UpdateTag mt t s g).result = mt.zero ∧
        (UpdateTag mt t s g).err = some ⟨r.StatusCode, res.Errors⟩)) ∧
    (∀ r res, t.NewRequest "DELETE" (URL.String
          { s.URL with
            Path := "/tag/-"
            RawQuery := Values.Encode [("uuid", [u.String])] }) none = .ok r →
      t.Decode r (unmarshalStruct deleteFields) ⟨.nil⟩ = .ok res →
      (r.StatusCode = 200 → (DeleteTag t s u).err = none) ∧
      (r.StatusCode ≠ 200 → (DeleteTag t s u).err = some ⟨r.StatusCode, res.Errors⟩)) := by
  refine ⟨?_, ?_, ?_, ?_, ?_, ?_, ?_, ?_, ?_⟩
  · intro p r res h1 h2 h3
    simp only [CreateItem, h1, h2, h3]
    constructor <;> intro h4 <;> simp [h4]
  · intro p r res h1 h2 h3
    simp only [UpdateItem, h1, h2, h3]
    constructor <;> intro h4 <;> simp [h4]
  · intro r res h1 h2
    simp only [DeleteItem, h1, h2]
    constructor <;> intro h4 <;> simp [h4]
  · intro r res h1 h2
    simp only [GetTags, h1, h2]
    constructor <;> intro h4 <;> simp [h4]
  · intro r res h1 h2
    simp only [GetUserTags, h1, h2]
    constructor <;> intro h4 <;> simp [h4]
  · intro r res h1 h2
    simp only [GetOrganisationTags, h1, h2]
    constructor <;> intro h4 <;> simp [h4]
  · intro p r res h1 h2 h3
    simp only [CreateTag, h1, h2, h3]
    constructor <;> intro h4 <;> simp [h4]
  · intro p r res h1 h2 h3
    simp only [UpdateTag, h1, h2, h3]
    constructor <;> intro h4 <;> simp [h4]
  · intro r res h1 h2
    simp only [DeleteTag, h1, h2]
    constructor <;> intro h4 <;> simp [h4]

/-- Witness of C10, amended: UpdateItem against status 201, which is not its expected
status 200, returns the zero item and an error with status 201 and the decoded map. -/
theorem status_classification_witness :
    (UpdateItem labelModel
        (reply 201 (envelope "updated" (.obj [("item", .obj [("name", .str "rent")])])
          (errorsDoc permission))) client ⟨"rent"⟩).result = ⟨""⟩ ∧
    (UpdateItem labelModel
        (reply 201 (envelope "updated" (.obj [("item", .obj [("name", .str "rent")])])
          (errorsDoc permission))) client ⟨"rent"⟩).err
      = some ⟨201, .mk [("permission", .mk ["Please ensure you have permission"])]⟩ :=
  ((status_classification labelModel labelModel
      (reply 201 (envelope "updated" (.obj [("item", .obj [("name", .str "rent")])])
        (errorsDoc permission))) client ⟨"rent"⟩ ⟨"food"⟩ sampleUUID).2.1
    "name=rent" ⟨201, "body"⟩
    ⟨⟨⟨"rent"⟩⟩, .mk [("permission", .mk ["Please ensure you have permission"])]⟩
    rfl rfl rfl).2 (by decide)

/-- C11, as stated, fails: CreateItem with an encoder that fails makes no `NewRequest`
call at all. -/
theorem no_request_after_encoding_failure :
    requests (CreateItem (failingModel ⟨500, .mk [("marshal", .mk ["unsupported"])]⟩)
      (reply 201 (envelope "created" (.obj []) (errorsDoc []))) client ⟨"rent"⟩).calls
      = 0 := by
  decide

/-- C11, amended. For every operation, every input and every behaviour of the
collaborators, one invocation calls `NewRequest` at most once and `Decode` at most once:
CreateItem, UpdateItem, CreateTag and UpdateTag call `NewRequest` exactly once when the
payload is encoded and not at all (and `Decode` neither) when the encoding fails; the
operations without a payload call `NewRequest` exactly once. -/
theorem single_attempt {Item Tag : Type} (mi : Model Item) (mt : Model Tag)
    (t : Transport) (s : Service) (i : Item) (g : Tag) (u : UUID) :
    ((∀ e, mi.MarshalReader i = .error e →
        requests (CreateItem mi t s i).calls = 0 ∧ decodes (CreateItem mi t s i).calls = 0) ∧
      (∀ p, mi.MarshalReader i = .ok p → requests (CreateItem mi t s i).calls = 1) ∧
      requests (CreateItem mi t s i).calls ≤ 1 ∧ decodes (CreateItem mi t s i).calls ≤ 1) ∧
    ((∀ e, mi.MarshalReader i = .error e →
        requests (UpdateItem mi t s i).calls = 0 ∧ decodes (UpdateItem mi t s i).calls = 0) ∧
      (∀ p, mi.MarshalReader i = .ok p → requests (UpdateItem mi t s i).calls = 1) ∧
      requests (UpdateItem mi t s i).calls ≤ 1 ∧ decodes (UpdateItem mi t s i).calls ≤ 1) ∧
    (requests (DeleteItem t s u).calls = 1 ∧ decodes (DeleteItem t s u).calls ≤ 1) ∧
    (requests (GetTags mt t s).calls = 1 ∧ decodes (GetTags mt t s).calls ≤ 1) ∧
    (requests (GetUserTags mt t s u).calls = 1 ∧ decodes (GetUserTags mt t s u).calls ≤ 1) ∧
    (requests (GetOrganisationTags mt t s u).calls = 1 ∧ decodes (GetOrganisationTags mt t s u).calls ≤ 1) ∧
    ((∀ e, mt.MarshalReader g = .error e →
        requests (CreateTag mt t s g).calls = 0 ∧ decodes (CreateTag mt t s g).calls = 0) ∧
      (∀ p, mt.MarshalReader g = .ok p → requests (CreateTag mt t s g).calls = 1) ∧
      requests (CreateTag mt t s g).calls ≤ 1 ∧ decodes (CreateTag mt t s g).calls ≤ 1) ∧
    ((∀ e, mt.MarshalReader g = .error e →
        requests (UpdateTag mt t s g).calls = 0 ∧ decodes (UpdateTag mt t s g).calls = 0) ∧
      (∀ p, mt.MarshalReader g = .ok p → requests (UpdateTag mt t s g).calls = 1) ∧
      requests (UpdateTag mt t s g).calls ≤ 1 ∧ decodes (UpdateTag mt t s g).calls ≤ 1) ∧
    (requests (DeleteTag t s u).calls = 1 ∧ decodes (DeleteTag t s u).calls ≤ 1) := by
  refine ⟨?_, ?_, ?_, ?_, ?_, ?_, ?_, ?_, ?_⟩
  · simp only [CreateItem]
    repeat' split
    all_goals simp_all [requests, decodes, Call.isNewRequest, Call.isDecode]
  · simp only [UpdateItem]
    repeat' split
    all_goals simp_all [requests, decodes, Call.isNewRequest, Call.isDecode]
  · simp only [DeleteItem]
    repeat' split
    all_goals simp_all [requests, decodes, Call.isNewRequest, Call.isDecode]
  · simp only [GetTags]
    repeat' split
    all_goals simp_all [requests, decodes, Call.isNewRequest, Call.isDecode]
  · simp only [GetUserTags]
    repeat' split
    all_goals simp_all [requests, decodes, Call.isNewRequest, Call.isDecode]
  · simp only [GetOrganisationTags]
    repeat' split
    all_goals simp_all [requests, decodes, Call.isNewRequest, Call.isDecode]
  · simp only [CreateTag]
    repeat' split
    all_goals simp_all [requests, decodes, Call.isNewRequest, Call.isDecode]
  · simp only [UpdateTag]
    repeat' split
    all_goals simp_all [requests, decodes, Call.isNewRequest, Call.isDecode]
  · simp only [DeleteTag]
    repeat' split
    all_goals simp_all [requests, decodes, Call.isNewRequest, Call.isDecode]

/-- Witness of C11, amended: UpdateTag, whose payload is encoded, against a transport
that answers calls `NewRequest` exactly once. -/
theorem single_attempt_witness :
    requests (UpdateTag labelModel (reply 200 (envelope "updated" (.obj []) (errorsDoc [])))
      client ⟨"food"⟩).calls = 1 :=
  (single_attempt labelModel labelModel
    (reply 200 (envelope "updated" (.obj []) (errorsDoc []))) client ⟨"rent"⟩ ⟨"food"⟩
    sampleUUID).2.2.2.2.2.2.2.1.2.1 "name=food" rfl

/-- C12, as stated, fails: CreateItem against status 201 and an envelope whose `data.item`
carries the same non-zero identifier as user and as organisation succeeds and returns a
resource with both owners set. -/
theorem both_owners_returned :
    (CreateItem resourceModel
      (reply 201 (envelope "created"
        (.obj [("item", resourceDoc (.str "e6b7f986-307c-4147-a34e-f924790799bb")
          (.str "e4bd194d-41e7-4f27-a4a8-161685a9b8b8")
          (.str "e4bd194d-41e7-4f27-a4a8-161685a9b8b8") otherMembers)]) (errorsDoc [])))
      client ⟨sampleUUID, ownerUUID, UUID.zero⟩).err = none ∧
    (CreateItem resourceModel
      (reply 201 (envelope "created"
        (.obj [("item", resourceDoc (.str "e6b7f986-307c-4147-a34e-f924790799bb")
          (.str "e4bd194d-41e7-4f27-a4a8-161685a9b8b8")
          (.str "e4bd194d-41e7-4f27-a4a8-161685a9b8b8") otherMembers)]) (errorsDoc [])))
      client ⟨sampleUUID, ownerUUID, UUID.zero⟩).result.UserUUID ≠ UUID.zero ∧
    (CreateItem resourceModel
      (reply 201 (envelope "created"
        (.obj [("item", resourceDoc (.str "e6b7f986-307c-4147-a34e-f924790799bb")
          (.str "e4bd194d-41e7-4f27-a4a8-161685a9b8b8")
          (.str "e4bd194d-41e7-4f27-a4a8-161685a9b8b8") otherMembers)]) (errorsDoc [])))
      client ⟨sampleUUID, ownerUUID, UUID.zero⟩).result.OrganisationUUID ≠ UUID.zero := by
  refine ⟨?_, ?_, ?_⟩ <;> decide

/-- C12, amended. The client does not enforce exclusive ownership: a resource returned by
a successful CreateItem, UpdateItem, CreateTag or UpdateTag has the identity and the two
owners that the members `uuid`, `user_uuid` and `organisation_uuid` of `data.<key>`
decode to, whatever they are (members with other names are skipped); an owner member
that is JSON `null` gives the zero identifier, the text of an identifier gives that
identifier. -/
theorem owners_as_transmitted (t : Transport) (s : Service) (x : Resource) (msg : String)
    (jid ju jo : JSON) (rest : List (String × JSON)) (M : List (String × List String))
    (i a b : UUID)
    (hrest : ∀ kv ∈ rest, foldName kv.1 ∉ ["UUID", "USER_UUID", "ORGANISATION_UUID"])
    (hi : unmarshalUUID jid UUID.zero = some i) (ha : unmarshalUUID ju UUID.zero = some a)
    (hb : unmarshalUUID jo UUID.zero = some b) :
    (∀ p r, resourceModel.MarshalReader x = .ok p →
      t.NewRequest "POST" (URL.String { s.URL with Path := "/item" }) (some p) = .ok r →
      r.StatusCode = 201 →
      t.parse r.Body
        = .ok (envelope msg (.obj [("item", resourceDoc jid ju jo rest)]) (errorsDoc M)) →
      (CreateItem resourceModel t s x).result = ⟨i, a, b⟩ ∧ (CreateItem resourceModel t s x).err = none ∧
      (ju = .null → (CreateItem resourceModel t s x).result.UserUUID = UUID.zero) ∧
      (jo = .null → (CreateItem resourceModel t s x).result.OrganisationUUID = UUID.zero)) ∧
    (∀ p r, resourceModel.MarshalReader x = .ok p →
      t.NewRequest "PUT" (URL.String { s.URL with Path := "/item/-" }) (some p) = .ok r →
      r.StatusCode = 200 →
      t.parse r.Body
        = .ok (envelope msg (.obj [("item", resourceDoc jid ju jo rest)]) (errorsDoc M)) →
      (UpdateItem resourceModel t s x).result = ⟨i, a, b⟩ ∧ (UpdateItem resourceModel t s x).err = none ∧
      (ju = .null → (UpdateItem resourceModel t s x).result.UserUUID = UUID.zero) ∧
      (jo = .null → (UpdateItem resourceModel t s x).result.OrganisationUUID = UUID.zero)) ∧
    (∀ p r, resourceModel.MarshalReader x = .ok p →
      t.NewRequest "POST" (URL.String { s.URL with Path := "/tag" }) (some p) = .ok r →
      r.StatusCode = 201 →
      t.parse r.Body
        = .ok (envelope msg (.obj [("tag", resourceDoc jid ju jo rest)]) (errorsDoc M)) →
      (CreateTag resourceModel t s x).result = ⟨i, a, b⟩ ∧ (CreateTag resourceModel t s x).err = none ∧
      (ju = .null → (CreateTag resourceModel t s x).result.UserUUID = UUID.zero) ∧
      (jo = .null → (CreateTag resourceModel t s x).result.OrganisationUUID = UUID.zero)) ∧
    (∀ p r, resourceModel.MarshalReader x = .ok p →
      t.NewRequest "PUT" (URL.String { s.URL with Path := "/tag/-" }) (some p) = .ok r →
      r.StatusCode = 200 →
      t.parse r.Body
        = .ok (envelope msg (.obj [("tag", resourceDoc jid ju jo rest)]) (errorsDoc M)) →
      (UpdateTag resourceModel t s x).result = ⟨i, a, b⟩ ∧ (UpdateTag resourceModel t s x).err = none ∧
      (ju = .null → (UpdateTag resourceModel t s x).result.UserUUID = UUID.zero) ∧
      (jo = .null → (UpdateTag resourceModel t s x).result.OrganisationUUID = UUID.zero)) ∧
    unmarshalUUID .null UUID.zero = some UUID.zero ∧
    (∀ (v cur : UUID), unmarshalUUID (.str v.String) cur = some v) := by
  refine ⟨?_, ?_, ?_, ?_, rfl, fun v _ => Parse_String v⟩
  · intro p r h1 h2 h3 h4
    have hd := unmarshal_single_envelope resourceModel "item" msg
      (resourceDoc jid ju jo rest) M ⟨i, a, b⟩ (by simp)
      (unmarshal_resourceDoc jid ju jo rest i a b hrest hi ha hb)
    simp only [CreateItem, h1, h2, Transport.Decode, h4, hd]
    refine ⟨by simp [h3], by simp [h3], ?_, ?_⟩
    · intro hn
      rw [hn] at ha
      simp only [unmarshalUUID, Option.some.injEq] at ha
      simp [h3, ha]
    · intro hn
      rw [hn] at hb
      simp only [unmarshalUUID, Option.some.injEq] at hb
      simp [h3, hb]
  · intro p r h1 h2 h3 h4
    have hd := unmarshal_single_envelope resourceModel "item" msg
      (resourceDoc jid ju jo rest) M ⟨i, a, b⟩ (by simp)
      (unmarshal_resourceDoc jid ju jo rest i a b hrest hi ha hb)
    simp only [UpdateItem, h1, h2, Transport.Decode, h4, hd]
    refine ⟨by simp [h3], by simp [h3], ?_, ?_⟩
    · intro hn
      rw [hn] at ha
      simp only [unmarshalUUID, Option.some.injEq] at ha
      simp [h3, ha]
    · intro hn
      rw [hn] at hb
      simp only [unmarshalUUID, Option.some.injEq] at hb
      simp [h3, hb]
  · intro p r h1 h2 h3 h4
    have hd := unmarshal_single_envelope resourceModel "tag" msg
      (resourceDoc jid ju jo rest) M ⟨i, a, b⟩ (by simp)
      (unmarshal_resourceDoc jid ju jo rest i a b hrest hi ha hb)
    simp only [CreateTag, h1, h2, Transport.Decode, h4, hd]
    refine ⟨by simp [h3], by simp [h3], ?_, ?_⟩
    · intro hn
      rw [hn] at ha
      simp only [unmarshalUUID, Option.some.injEq] at ha
      simp [h3, ha]
    · intro hn
      rw [hn] at hb
      simp only [unmarshalUUID, Option.some.injEq] at hb
      simp [h3, hb]
  · intro p r h1 h2 h3 h4
    have hd := unmarshal_single_envelope resourceModel "tag" msg
      (resourceDoc jid ju jo rest) M ⟨i, a, b⟩ (by simp)
      (unmarshal_resourceDoc jid ju jo rest i a b hrest hi ha hb)
    simp only [UpdateTag, h1, h2, Transport.Decode, h4, hd]
    refine ⟨by simp [h3], by simp [h3], ?_, ?_⟩
    · intro hn
      rw [hn] at ha
      simp only [unmarshalUUID, Option.some.injEq] at ha
      simp [h3, ha]
    · intro hn
      rw [hn] at hb
      simp only [unmarshalUUID, Option.some.injEq] at hb
      simp [h3, hb]

/-- Witness of C12, amended: the body of the test case "create user bank account", sent
as `data.item` with status 201, whose `organisation_uuid` is `null`. -/
theorem owners_as_transmitted_witness :
    (CreateItem resourceModel
      (reply 201 (envelope "bank account create"
        (.obj [("item", resourceDoc (.str "e6b7f986-307c-4147-a34e-f924790799bb")
          (.str "e4bd194d-41e7-4f27-a4a8-161685a9b8b8") .null otherMembers)]) (errorsDoc [])))
      client ⟨sampleUUID, ownerUUID, UUID.zero⟩).result
      = ⟨sampleUUID, ownerUUID, UUID.zero⟩ ∧
    (CreateItem resourceModel
      (reply 201 (envelope "bank account create"
        (.obj [("item", resourceDoc (.str "e6b7f986-307c-4147-a34e-f924790799bb")
          (.str "e4bd194d-41e7-4f27-a4a8-161685a9b8b8") .null otherMembers)]) (errorsDoc [])))
      client ⟨sampleUUID, ownerUUID, UUID.zero⟩).err = none :=
  have h := (owners_as_transmitted
      (reply 201 (envelope "bank account create"
        (.obj [("item", resourceDoc (.str "e6b7f986-307c-4147-a34e-f924790799bb")
          (.str "e4bd194d-41e7-4f27-a4a8-161685a9b8b8") .null otherMembers)]) (errorsDoc [])))
      client ⟨sampleUUID, ownerUUID, UUID.zero⟩ "bank account create"
      (.str "e6b7f986-307c-4147-a34e-f924790799bb")
      (.str "e4bd194d-41e7-4f27-a4a8-161685a9b8b8") .null otherMembers []
      sampleUUID ownerUUID UUID.zero (by decide) (by decide) (by decide) rfl).1
    _ ⟨201, "body"⟩ rfl rfl rfl rfl
  ⟨h.1, h.2.1⟩

/-- C13. Every operation of `item.go` and `tag.go`, on every outcome (success, remote
error, transport failure, encoding failure, decoding failure), leaves a client that
differs from the one it was called on only in the URL path, which is the path of the
operation whatever it was before, and, for DeleteItem, DeleteTag, GetUserTags and
GetOrganisationTags only, in the query string, which is `uuid=<text of u>`; scheme and
host are unchanged, and the other operations leave the query string as it was. -/
theorem client_frame {Item Tag : Type} (mi : Model Item) (mt : Model Tag)
    (t : Transport) (s : Service) (i : Item) (g : Tag) (u : UUID) :
    (CreateItem mi t s i).s = ⟨{ s.URL with Path := "/item" }⟩ ∧
    (UpdateItem mi t s i).s = ⟨{ s.URL with Path := "/item/-" }⟩ ∧
    (DeleteItem t s u).s
      = ⟨{ s.URL with
          Path := "/item/-"
          RawQuery := "uuid=" ++ u.String }⟩ ∧
    (GetTags mt t s).s = ⟨{ s.URL with Path := "/tag" }⟩ ∧
    (GetUserTags mt t s u).s
      = ⟨{ s.URL with
          Path := "/tag/user/-"
          RawQuery := "uuid=" ++ u.String }⟩ ∧
    (GetOrganisationTags mt t s u).s
      = ⟨{ s.URL with
          Path := "/tag/organisation/-"
          RawQuery := "uuid=" ++ u.String }⟩ ∧
    (CreateTag mt t s g).s = ⟨{ s.URL with Path := "/tag" }⟩ ∧
    (UpdateTag mt t s g).s = ⟨{ s.URL with Path := "/tag/-" }⟩ ∧
    (DeleteTag t s u).s
      = ⟨{ s.URL with
          Path := "/tag/-"
          RawQuery := "uuid=" ++ u.String }⟩ := by
  refine ⟨?_, ?_, ?_, ?_, ?_, ?_, ?_, ?_, ?_⟩
  · simp only [CreateItem]
    repeat' split
    all_goals rfl
  · simp only [UpdateItem]
    repeat' split
    all_goals rfl
  · rw [← encode_uuid u]
    simp only [DeleteItem]
    repeat' split
    all_goals rfl
  · simp only [GetTags]
    repeat' split
    all_goals rfl
  · rw [← encode_uuid u]
    simp only [GetUserTags]
    repeat' split
    all_goals rfl
  · rw [← encode_uuid u]
    simp only [GetOrganisationTags]
    repeat' split
    all_goals rfl
  · simp only [CreateTag]
    repeat' split
    all_goals rfl
  · simp only [UpdateTag]
    repeat' split
    all_goals rfl
  · rw [← encode_uuid u]
    simp only [DeleteTag]
    repeat' split
    all_goals rfl

end Bankserv
